import Mathlib

/-!
# Verification of the aiforce discovery-agent event backbone

Shallow embedding, in Lean 4, of the parts of the repository that the
frozen claims are about:

* `collectors/infra-probe/src/ssh_probe.py` — credential object and SSH probe,
* `collectors/code-analyzer/src/handlers/discover.py` — autonomous scan loop,
* `platform/dryrun-orchestrator/config.py` — startup settings validation,
* `gateway/transmitter/src/batch.py` and `client.py` — batching and egress,
* `platform/processor/src/modules/pii_redactor.py` — stage-3 redaction,
* `platform/processor/src/modules/candidate_identification.py` — stage 1,
* `platform/processor/src/modules/correlation.py` — stage 5,
* `scripts/testenv/generator.py` and `manifest.py` — seeded generator.

Python dictionaries are embedded as structures with `Option` fields (absent
key = `none`); machine integers are `Nat`/`Int`; floats that the code only
ever compares against decimal literals are embedded as `Rat`; I/O and
library calls (SSH, HTTP, gzip, the PRNG) are oracles passed in as explicit
arguments, so every function is a pure, executable Lean definition.
-/

/-- `containsSub needle hay` decides whether `needle` occurs as a contiguous
substring of `hay` (both as character lists). -/
def containsSub (needle hay : List Char) : Bool :=
  match hay with
  | [] => needle.isEmpty
  | _ :: t => needle.isPrefixOf hay || containsSub needle t

/-- String version of `containsSub` (Python's `in` operator on `str`). -/
def strContains (hay needle : String) : Bool :=
  containsSub needle.toList hay.toList

/-- Python's `str.lower()` at its ASCII meaning (all strings the embedded
code lowercases are ASCII). -/
def pyLower (s : String) : String :=
  String.mk (s.toList.map Char.toLower)

/-! ## Infra-probe credential core

Embeds `collectors/infra-probe/src/ssh_probe.py`.
-/

/-- `ProbeCredentials` dataclass (ssh_probe.py lines 20–51). -/
structure ProbeCredentials where
  username : String
  password : Option String := none
  private_key : Option String := none
  passphrase : Option String := none
  deriving Repr, DecidableEq

namespace ProbeCredentials

/-- `ProbeCredentials.__repr__`: the fixed redacted form
`ProbeCredentials(username=<username>, password=***, key=***)`. -/
def reprStr (c : ProbeCredentials) : String :=
  "ProbeCredentials(username=" ++ c.username ++ ", password=***, key=***)"

/-- `ProbeCredentials.__str__` delegates to `__repr__`. -/
def strStr (c : ProbeCredentials) : String :=
  c.reprStr

/-- One secret field after `clear()`: the source guards each field with
`if self.password:` — Python truthiness, so `None` and the empty string are
both skipped — and only then overwrites the value with same-length `"x"`
filler and sets the field to `None`.  The intermediate overwritten value is
returned alongside the final value so the scrub discipline is visible in the
model; a present-but-empty secret is left as the empty string. -/
def clearField (v : Option String) : Option String × Option String :=
  match v with
  | none => (none, none)
  | some s =>
      if s = "" then (some s, some s)
      else (some (String.mk (List.replicate s.length 'x')), none)

/-- `ProbeCredentials.clear()` (final state): every present nonempty secret
is overwritten and nulled; an empty-string secret fails the truthiness
check and survives; the username is untouched. -/
def clear (c : ProbeCredentials) : ProbeCredentials :=
  { c with
    password := (clearField c.password).2
    private_key := (clearField c.private_key).2
    passphrase := (clearField c.passphrase).2 }

end ProbeCredentials

/-- Opaque embedding of a Python `dict[str, Any]` whose internal structure no
claim depends on (OS info, hardware info, network config entries). -/
abbrev PyDict := List (String × String)

/-- Result of `SSHProbe._run_command`: decoded stdout, stderr and the exit
status (ssh_probe.py lines 185–199). -/
structure CmdResult where
  stdout : String
  stderr : String
  exitCode : Int
  deriving Repr, DecidableEq

/-- Outcome of one SSH command as observed by a collection helper: the
underlying `exec_command` either raised or returned a `CmdResult`. -/
inductive CmdOutcome where
  | raise
  | ok (r : CmdResult)
  deriving Repr, DecidableEq

/-- Outcome of one of the aggregate collection helpers
(`_get_os_info`, `_get_hardware_info`, …).  Each helper wraps its whole body
in `try: … except Exception: pass` and returns its accumulator, so it never
propagates an exception; the command parsing inside the helper is
collaborator-level detail abstracted as the `ok` value (on `raise` the source
returns whatever was accumulated before the failure — the oracle's `raise`
constructor carries that partial value implicitly as the helper default). -/
inductive HelperOutcome (α : Type) where
  | raise
  | ok (v : α)
  deriving Repr, DecidableEq

/-- The swallow-all-exceptions shape shared by every collection helper:
on `raise` the helper's default accumulator is returned. -/
def runHelper {α : Type} (default : α) (o : HelperOutcome α) : α :=
  match o with
  | .raise => default
  | .ok v => v

/-- `SSHProbe._get_hostname` (ssh_probe.py lines 201–209): run `hostname`;
on exit code 0 return the stripped stdout, otherwise (nonzero exit or a
raised exception) return `None`. -/
def getHostname (o : CmdOutcome) : Option String :=
  match o with
  | .raise => none
  | .ok r => if r.exitCode = 0 then some r.stdout.trim else none

/-- A Python exception as classified by the probe: the type name (the only
part the source ever logs or stores) and the message body (which the source
deliberately never touches). -/
structure PyExn where
  tyName : String
  message : String
  deriving Repr, DecidableEq

/-- Oracle for everything the six collection helpers observe over the open
SSH session. -/
structure CollectOutcomes where
  hostnameCmd : CmdOutcome
  osInfo : HelperOutcome PyDict
  hardware : HelperOutcome PyDict
  software : HelperOutcome (List PyDict)
  services : HelperOutcome (List PyDict)
  network : HelperOutcome PyDict
  deriving Repr, DecidableEq

/-- How far the `try` body of `SSHProbe.probe` got: the `paramiko` import
failed, the connect (or key parsing) raised, or the session opened and the
helpers ran, after which `client.close()` in the inner `finally` may itself
have raised. -/
inductive ConnectPhase where
  | importError
  | connectRaise (e : PyExn)
  | connected (cmds : CollectOutcomes) (closeRaise : Option PyExn)
  deriving Repr, DecidableEq

/-- `ProbeResult` dataclass (ssh_probe.py lines 54–71) with the source's
field defaults. -/
structure ProbeResult where
  probe_id : String
  target_ip : String
  server_id : Option String := none
  hostname : Option String := none
  operating_system : PyDict := []
  hardware : PyDict := []
  installed_software : List PyDict := []
  running_services : List PyDict := []
  network_config : PyDict := []
  success : Bool := false
  error : Option String := none
  deriving Repr, DecidableEq

/-- What `SSHProbe.probe` leaves behind: the returned result and the state
of the credentials object when the function returns. -/
structure ProbeReturn where
  result : ProbeResult
  credsAfter : ProbeCredentials
  deriving Repr, DecidableEq

/-- `SSHProbe.probe` (ssh_probe.py lines 89–183).  The `try/except/finally`
ladder: `ImportError` yields the fixed message; any other exception is
classified by type name only (`"Connection failed: <TypeName>"`); on a
successful connect the helpers fill the result fields and `success` is set
before the inner `finally` closes the client (a raising `close()` is caught
by the outer handler after `success` was already set).  The outer `finally`
clears the credentials on every path before the result is returned. -/
def SSHProbe.probe (probeId targetIp : String) (creds : ProbeCredentials)
    (serverId : Option String) (phase : ConnectPhase) : ProbeReturn :=
  let base : ProbeResult :=
    { probe_id := probeId, target_ip := targetIp, server_id := serverId }
  let result :=
    match phase with
    | .importError => { base with error := some "paramiko not installed" }
    | .connectRaise e =>
        { base with error := some ("Connection failed: " ++ e.tyName) }
    | .connected cmds closeRaise =>
        let collected := { base with
          hostname := getHostname cmds.hostnameCmd
          operating_system := runHelper [] cmds.osInfo
          hardware := runHelper [] cmds.hardware
          installed_software := runHelper [] cmds.software
          running_services := runHelper [] cmds.services
          network_config := runHelper [] cmds.network
          success := true }
        match closeRaise with
        | none => collected
        | some e =>
            { collected with error := some ("Connection failed: " ++ e.tyName) }
  { result := result, credsAfter := creds.clear }

/-- The fixed redacted form of a credentials object, a function of the
username alone. -/
def credTemplate (username : String) : String :=
  "ProbeCredentials(username=" ++ username ++ ", password=***, key=***)"

/-! ## Code-analyzer autonomous discovery

Embeds `collectors/code-analyzer/src/handlers/discover.py` (the
`/api/v1/discover` handler) together with the parts of
`connectors/callback.py` it drives (sequence counter, discovery counter,
one POST per `report_progress` / `report_complete`).
-/

/-- Outcome of analysing one repository directory inside the scan loop:
the four analyzers either all succeed — the repo then publishes one
`repository` event, one `codebase` event and one event per extracted
dependency — or some step raises and the loop records the failure and
continues (discover.py lines 112–158). -/
inductive RepoOutcome where
  | ok (deps : Nat)
  | raiseErr (msg : String)
  deriving Repr, DecidableEq

/-- One repository directory found under the scan paths. -/
structure RepoTarget where
  name : String
  outcome : RepoOutcome
  deriving Repr, DecidableEq

/-- One progress callback POST (callback.py `report_progress`). -/
structure ProgressMsg where
  sequence : Nat
  phase : String
  progress : Nat
  discovery_count : Nat
  message : Option String
  deriving Repr, DecidableEq

/-- One completion callback POST (callback.py `report_complete`). -/
structure CompleteMsg where
  status : String
  discovery_count : Nat
  error_message : Option String
  deriving Repr, DecidableEq

/-- Observable trace of one `/discover` call: every callback POSTed, the
total number of events published on the exchange, and the HTTP response
status. -/
structure DiscoverTrace where
  progressMsgs : List ProgressMsg
  completions : List CompleteMsg
  publishedEvents : Nat
  responseStatus : String
  deriving Repr, DecidableEq

/-- Accumulator of the scan loop. -/
structure ScanLoopState where
  seq : Nat
  discoveryCount : Nat
  progressMsgs : List ProgressMsg
  publishedEvents : Nat
  failedRepos : List String
  analyzedRepos : Nat
  deriving Repr, DecidableEq

/-- One iteration of the scan loop (discover.py lines 102–158): report
progress, then analyse; on success publish `2 + deps` events incrementing
the discovery counter after each publish; on an exception append the repo
name to `failed_repos` and continue. -/
def scanStep (total : Nat) (st : ScanLoopState) (i : Nat) (t : RepoTarget) :
    ScanLoopState :=
  let progress := ((i + 1) * 100) / total
  let st := { st with
    seq := st.seq + 1
    progressMsgs := st.progressMsgs ++
      [({ sequence := st.seq + 1, phase := "scanning", progress := progress,
          discovery_count := st.discoveryCount,
          message := some ("Analyzing repository " ++ toString (i + 1) ++ "/" ++
            toString total ++ ": " ++ t.name) } : ProgressMsg)] }
  match t.outcome with
  | .ok deps =>
      { st with
        publishedEvents := st.publishedEvents + 2 + deps
        discoveryCount := st.discoveryCount + 2 + deps
        analyzedRepos := st.analyzedRepos + 1 }
  | .raiseErr _ => { st with failedRepos := st.failedRepos ++ [t.name] }

/-- The loop over all enumerated repositories.  The reporter's sequence
counter starts at 1 because the handler's initial `initializing` progress
callback has already consumed sequence 1 on the shared reporter, so the
scanning messages are numbered 2..n+1. -/
def scanLoop (targets : List RepoTarget) : ScanLoopState :=
  (targets.enum.foldl (fun st p => scanStep targets.length st p.1 p.2)
    { seq := 1, discoveryCount := 0, progressMsgs := [], publishedEvents := 0,
      failedRepos := [], analyzedRepos := 0 })

/-- Completion-status selection (discover.py lines 160–169): `"failed"`
with `All n repos failed analysis` when nothing was analyzed, otherwise
`"completed"` — with `f/t repos failed analysis` when some repos failed,
with no error message when none did. -/
def completionFor (totalRepos : Nat) (failedRepos : List String)
    (analyzedRepos : Nat) : String × Option String :=
  if ¬failedRepos.isEmpty ∧ analyzedRepos = 0 then
    ("failed", some ("All " ++ toString failedRepos.length ++
      " repos failed analysis"))
  else if ¬failedRepos.isEmpty then
    ("completed", some (toString failedRepos.length ++ "/" ++
      toString totalRepos ++ " repos failed analysis"))
  else
    ("completed", none)

/-- `discover_repositories` (discover.py lines 18–192) on an already
enumerated list of repository directories: initial progress callback, the
scan loop, then exactly one completion callback; when no repositories were
found the handler completes early with status `"completed"`. -/
def discoverRepositories (targets : List RepoTarget) : DiscoverTrace :=
  let initMsg : ProgressMsg :=
    { sequence := 1, phase := "initializing", progress := 0,
      discovery_count := 0,
      message := some "Starting code repository discovery" }
  if targets.isEmpty then
    { progressMsgs := [initMsg],
      completions := [{ status := "completed", discovery_count := 0,
                        error_message := none }],
      publishedEvents := 0,
      responseStatus := "completed" }
  else
    let st := scanLoop targets
    let (status, errMsg) :=
      completionFor targets.length st.failedRepos st.analyzedRepos
    { progressMsgs := initMsg :: st.progressMsgs,
      completions := [{ status := status, discovery_count := st.discoveryCount,
                        error_message := errMsg }],
      publishedEvents := st.publishedEvents,
      responseStatus := status }

/-! ## Dry-run orchestrator startup configuration

Embeds `platform/dryrun-orchestrator/config.py`: the Pydantic `Settings`
class (env prefix `DRYRUN_`) and the module-level startup validation that
wraps a validation failure in a `SystemExit` diagnostic.
-/

/-- The process environment as a finite map. -/
abbrev EnvMap := List (String × String)

/-- Lookup of an environment variable. -/
def envLookup (env : EnvMap) (k : String) : Option String :=
  (env.find? (fun p => p.1 == k)).map (·.2)

/-- The `Settings` fields (config.py lines 39–86). -/
structure DryrunSettings where
  postgres_url : String
  rabbitmq_url : String
  redis_url : String
  api_key : String
  log_level : String
  sample_repos_path : String
  sample_repos_host_path : String
  docker_network : String
  code_analyzer_url : String
  network_scanner_url : String
  db_inspector_url : String
  approval_api_url : String
  deriving Repr, DecidableEq

/-- Constructing `Settings()` from the environment.  `postgres_url` and
`rabbitmq_url` are declared `Field(...)` with no default and fail
validation when the variable is absent; `api_key` has a
`default_factory` generating a fresh token (`genKey` is that generated
token), and every other field has a literal default. -/
def settingsInit (env : EnvMap) (genKey : String) :
    Except String DryrunSettings :=
  let pg := envLookup env "DRYRUN_POSTGRES_URL"
  let mq := envLookup env "DRYRUN_RABBITMQ_URL"
  match pg, mq with
  | some p, some m =>
      .ok { postgres_url := p
            rabbitmq_url := m
            redis_url := (envLookup env "DRYRUN_REDIS_URL").getD
              "redis://redis:6379"
            api_key := (envLookup env "DRYRUN_API_KEY").getD genKey
            log_level := (envLookup env "DRYRUN_LOG_LEVEL").getD "info"
            sample_repos_path :=
              (envLookup env "DRYRUN_SAMPLE_REPOS_PATH").getD "/repos"
            sample_repos_host_path :=
              (envLookup env "DRYRUN_SAMPLE_REPOS_HOST_PATH").getD ""
            docker_network := (envLookup env "DRYRUN_DOCKER_NETWORK").getD
              "discovery-network"
            code_analyzer_url :=
              (envLookup env "DRYRUN_CODE_ANALYZER_URL").getD
                "http://code-analyzer:8002"
            network_scanner_url :=
              (envLookup env "DRYRUN_NETWORK_SCANNER_URL").getD
                "http://network-scanner:8001"
            db_inspector_url :=
              (envLookup env "DRYRUN_DB_INSPECTOR_URL").getD
                "http://db-inspector:8003"
            approval_api_url :=
              (envLookup env "DRYRUN_APPROVAL_API_URL").getD
                "http://approval-api:3001" }
  | _, _ =>
      .error ((if pg.isNone then "postgres_url: Field required\n" else "") ++
              (if mq.isNone then "rabbitmq_url: Field required\n" else ""))

/-- The tail of the startup diagnostic listing the required variables
(note the source's own message marks DRYRUN_API_KEY optional). -/
def dryrunDiagSuffix : String :=
  "\nRequired environment variables:\n" ++
  "  DRYRUN_POSTGRES_URL - PostgreSQL connection URL\n" ++
  "  DRYRUN_RABBITMQ_URL - RabbitMQ connection URL\n" ++
  "  DRYRUN_API_KEY - API key for authentication " ++
  "(optional, auto-generated if not set)"

/-- The module-level startup block (config.py lines 89-99): a validation
failure aborts the process (`SystemExit`, modelled as `.error`) with the
diagnostic text; otherwise the process comes up holding the settings. -/
def dryrunStartup (env : EnvMap) (genKey : String) :
    Except String DryrunSettings :=
  match settingsInit env genKey with
  | .ok s => .ok s
  | .error e => .error ("Configuration error: " ++ e ++ dryrunDiagSuffix)

/-! ## Transmitter: batch processor and API client

Embeds `gateway/transmitter/src/batch.py` (`BatchProcessor._process_batch`
and `_check_batch_size`) and `gateway/transmitter/src/client.py`
(`APIClient`).  Gzip compression and the external HTTP endpoint are
oracles; the Postgres batch ledger is a log of operations.
-/

/-- An approved discovery item held in the transmitter FIFO (opaque). -/
abbrev BatchItem := String

/-- Output of `BatchProcessor._transform_batch`: the raw format keeps the
items (plus `format`/`version`/`item_count` metadata derivable from them);
the neo4j format is the mapper/claim-builder output, abstracted as an
oracle-supplied payload. -/
inductive Payload where
  | raw (items : List BatchItem)
  | graph (g : String)
  deriving Repr, DecidableEq

/-- `BatchProcessor` configuration (batch.py lines 21–47). -/
structure BatchConfig where
  batch_size : Nat
  output_format : String := "raw"
  warn_batch_size_mb : Rat := 1
  max_batch_size_mb : Rat := 10
  retry_max_attempts : Nat := 3
  destination_url : String := ""
  deriving Repr, DecidableEq

/-- `_transform_batch` (batch.py lines 112–139); `neoMap` abstracts the
Neo4j mapper plus claim builder. -/
def transformBatch (cfg : BatchConfig) (neoMap : List BatchItem → String)
    (items : List BatchItem) : Payload :=
  if cfg.output_format == "neo4j" then .graph (neoMap items)
  else .raw items

/-- Log lines of the batch processor relevant to the claims. -/
inductive TxLog where
  | batchTooLarge (sizeMB maxMB : Rat)
  | largeBatchWarn (sizeMB : Rat)
  | batchRejected (maxMB : Rat)
  | requeued (count : Nat)
  deriving Repr, DecidableEq

/-- One operation on the `transmitter.batches` ledger (database.py calls
made from `_process_batch`). -/
inductive DbOp where
  | createBatch (batchId : Nat) (itemCount : Nat) (payloadSize : Nat)
      (destinationUrl : String)
  | updateSent (batchId : Nat)
  | updateSuccess (batchId : Nat) (httpStatus : Nat)
  | updateFailure (batchId : Nat) (httpStatus : Option Nat)
      (errorMessage : String) (retryCount : Nat)
  deriving Repr, DecidableEq

/-- `_check_batch_size` (batch.py lines 141–160): gzip the JSON (the
compressed byte count is the oracle `gzipSize`), convert to MiB and compare
with the limits; returns `(is_valid, size_mb)` and the log lines emitted.
`len(compressed)/(1024*1024)` is exact in binary floating point (division
by a power of two), so `Rat` arithmetic is a faithful model. -/
def checkBatchSize (cfg : BatchConfig) (gzipSize : Payload → Nat)
    (p : Payload) : (Bool × Rat) × List TxLog :=
  let sizeMB : Rat := (gzipSize p : Rat) / (1024 * 1024)
  if sizeMB > cfg.max_batch_size_mb then
    ((false, sizeMB), [.batchTooLarge sizeMB cfg.max_batch_size_mb])
  else if sizeMB > cfg.warn_batch_size_mb then
    ((true, sizeMB), [.largeBatchWarn sizeMB])
  else
    ((true, sizeMB), [])

/-- What `APIClient.send_batch` did for this batch, as observed by
`_process_batch`'s `try` block: a returned `(status, error)` pair, a
`TransmissionError` raised after retry exhaustion, or an unexpected
exception. -/
inductive SendOutcome where
  | returned (status : Nat) (errText : Option String)
  | transmissionError (status : Option Nat) (msg : String)
  | unexpected (msg : String)
  deriving Repr, DecidableEq

/-- Mutable state of the batch processor plus its observable effects. -/
structure BatchState where
  queue : List BatchItem
  dbOps : List DbOp
  logs : List TxLog
  batchesSent : Nat
  batchesFailed : Nat
  deriving Repr, DecidableEq

/-- `BatchProcessor._process_batch` (batch.py lines 162–255).  Items are
dequeued from the FIFO head, transformed, size-checked; an oversized batch
is re-queued at the head (`for item in reversed(items): appendleft`) with a
`Batch rejected` error log and the method returns — before any ledger call.
Otherwise a ledger row is created, flipped to sending, and the send outcome
is recorded; transmission errors (5xx/network) and unexpected errors
re-queue the items at the head. -/
def processBatch (cfg : BatchConfig) (gzipSize : Payload → Nat)
    (neoMap : List BatchItem → String) (payloadSizeOf : List BatchItem → Nat)
    (send : SendOutcome) (batchId : Nat) (st : BatchState) : BatchState :=
  if st.queue.isEmpty then st
  else
    let items := st.queue.take cfg.batch_size
    let rest := st.queue.drop cfg.batch_size
    if items.isEmpty then st
    else
    let transformed := transformBatch cfg neoMap items
    let ((isValid, _sizeMB), sizeLogs) := checkBatchSize cfg gzipSize transformed
    let st := { st with queue := rest, logs := st.logs ++ sizeLogs }
    if !isValid then
      { st with
        queue := items ++ st.queue
        logs := st.logs ++ [TxLog.batchRejected cfg.max_batch_size_mb] }
    else
      let payloadSize := payloadSizeOf items
      let st := { st with dbOps := st.dbOps ++
        [DbOp.createBatch batchId items.length payloadSize cfg.destination_url] }
      let st := { st with dbOps := st.dbOps ++ [DbOp.updateSent batchId] }
      match send with
      | .returned status errText =>
          match errText with
          | some err =>
              { st with
                dbOps := st.dbOps ++
                  [DbOp.updateFailure batchId (some status) err 0]
                batchesFailed := st.batchesFailed + 1 }
          | none =>
              { st with
                dbOps := st.dbOps ++ [DbOp.updateSuccess batchId status]
                batchesSent := st.batchesSent + 1 }
      | .transmissionError status msg =>
          let st := { st with
            dbOps := st.dbOps ++
              [DbOp.updateFailure batchId status msg cfg.retry_max_attempts]
            batchesFailed := st.batchesFailed + 1 }
          if status.isNone || status.getD 0 ≥ 500 then
            { st with
              queue := items ++ st.queue
              logs := st.logs ++ [TxLog.requeued items.length] }
          else st
      | .unexpected msg =>
          { st with
            dbOps := st.dbOps ++ [DbOp.updateFailure batchId none msg 0]
            batchesFailed := st.batchesFailed + 1
            queue := items ++ st.queue }

/-- `APIClient` constructor arguments (client.py lines 31–47). -/
structure ClientConfig where
  destination_url : String := ""
  retry_max_attempts : Nat := 3
  retry_backoff_multiplier : Nat := 2
  retry_max_delay_s : Nat := 300
  circuit_failure_threshold : Nat := 5
  circuit_reset_timeout_s : Nat := 60
  deriving Repr, DecidableEq

/-- The `circuitbreaker.CircuitBreaker` instance built by
`circuit(failure_threshold=…, recovery_timeout=…, …)` in
`APIClient.__init__` (client.py lines 54–59).  A breaker opens only when a
call routed through it fails `failureThreshold` times; `opened` is what
`is_circuit_open` reads. -/
structure CircuitBreakerState where
  failureThreshold : Nat
  recoveryTimeout : Nat
  failureCount : Nat := 0
  opened : Bool := false
  deriving Repr, DecidableEq

/-- Mutable state of an `APIClient` instance. -/
structure ClientState where
  breaker : CircuitBreakerState
  deriving Repr, DecidableEq

/-- `APIClient.__init__`: stores the configuration and builds the breaker
(which is assigned to `self._circuit_breaker` and never applied to any
function). -/
def mkAPIClient (cfg : ClientConfig) : ClientState :=
  { breaker := { failureThreshold := cfg.circuit_failure_threshold,
                 recoveryTimeout := cfg.circuit_reset_timeout_s } }

/-- `APIClient.is_circuit_open` (client.py lines 65–67). -/
def isCircuitOpen (st : ClientState) : Bool :=
  st.breaker.opened

/-- What one HTTP POST attempt observes: a response with a status code and
body text, or a network-level `httpx.RequestError`. -/
inductive AttemptResult where
  | resp (status : Nat) (text : String)
  | netErr (msg : String)
  deriving Repr, DecidableEq

/-- What `send_batch` produces: the `(status, error)` tuple, or a raised
`TransmissionError` (after retry exhaustion). -/
inductive SendResult where
  | returned (status : Nat) (errText : Option String)
  | raisedTransmission (status : Option Nat) (msg : String)
  deriving Repr, DecidableEq

/-- `APIClient._send_request` (client.py lines 107–154) on one attempt's
observation: `5xx` raises `TransmissionError("Server error: <code>", code)`;
`4xx` returns `(code, body)`; other codes return `(code, None)`; a network
error raises `TransmissionError(str(e))` with no status. -/
def sendRequest (a : AttemptResult) : SendResult :=
  match a with
  | .resp status text =>
      if status ≥ 500 then
        .raisedTransmission (some status) ("Server error: " ++ toString status)
      else if status ≥ 400 then .returned status (some text)
      else .returned status none
  | .netErr msg => .raisedTransmission none msg

/-- The tenacity retry loop in `_send_with_retry` (client.py lines 88–105):
up to `retry_max_attempts` attempts, retrying exactly on
`TransmissionError` and re-raising the last error after exhaustion.
`attempts` is the oracle giving what attempt `i` observes; the result is
paired with the number of HTTP requests actually issued.  (The source
always configures at least one attempt; zero remaining attempts yields the
last raised error.) -/
def sendWithRetryAux (attempts : Nat → AttemptResult) (idx : Nat) :
    Nat → SendResult × Nat
  | 0 => (.raisedTransmission none "retry budget exhausted", 0)
  | remaining + 1 =>
      match sendRequest (attempts idx) with
      | .returned s e => (.returned s e, 1)
      | .raisedTransmission s m =>
          if remaining = 0 then (.raisedTransmission s m, 1)
          else
            let (r, n) := sendWithRetryAux attempts (idx + 1) remaining
            (r, n + 1)

/-- `APIClient.send_batch` (client.py lines 69–86): delegates to
`_send_with_circuit_breaker`, whose body only calls `_send_with_retry`
inside a `try/except` that logs and re-raises — the breaker instance built
in `__init__` is never invoked, so the client state is returned unchanged.
The third component counts the HTTP requests issued by this call. -/
def sendBatch (cfg : ClientConfig) (attempts : Nat → AttemptResult)
    (st : ClientState) : SendResult × ClientState × Nat :=
  let (r, n) := sendWithRetryAux attempts 0 cfg.retry_max_attempts
  (r, st, n)

/-- Run a sequence of `send_batch` calls, threading the client state;
returns the final state and, for each call, its result and request count. -/
def runSendCalls (cfg : ClientConfig)
    (calls : List (Nat → AttemptResult)) (st : ClientState) :
    ClientState × List (SendResult × Nat) :=
  match calls with
  | [] => (st, [])
  | c :: cs =>
      let (r, st', n) := sendBatch cfg c st
      let (stF, rs) := runSendCalls cfg cs st'
      (stF, (r, n) :: rs)

/-! ## A regex core for the source's fixed patterns

`pii_redactor.py` and `candidate_identification.py` use `re.sub` /
`re.search` over a fixed, finite set of patterns.  The engine below
implements exactly the constructs those patterns use: character classes,
concatenation, alternation, greedy bounded/unbounded repetition, the `\b`
word boundary, and a single capturing group — with Python's leftmost,
backtracking, greedy-preference semantics (alternatives tried left to
right, repetitions longest first).  `\w`, `\d`, `\s` are modelled at their
ASCII meaning (the redactor's patterns are ASCII).
-/

/-- ASCII model of the `\w` class used for `\b` boundaries. -/
def isWordChar (c : Char) : Bool :=
  c.isAlphanum || c == '_'

/-- A `\b` word boundary between the previous and the next character
(out-of-string counts as non-word). -/
def isBoundary (prev next : Option Char) : Bool :=
  (match prev with | none => false | some c => isWordChar c) !=
  (match next with | none => false | some c => isWordChar c)

/-- Regex AST: exactly the constructs appearing in the source's pattern
set. -/
inductive Regex where
  | eps
  | cls (f : Char → Bool)
  | cat (a b : Regex)
  | alt (a b : Regex)
  | rep (r : Regex) (lo : Nat) (hi : Option Nat)
  | wordB
  | group (r : Regex)

/-- Matcher state: the character immediately before the remaining input
(for `\b`), the remaining input, and the text captured by the group. -/
structure MState where
  prev : Option Char
  rest : List Char
  cap : Option (List Char)

/-- Backtracking matcher.  Returns all ways the regex can match a prefix of
`st.rest`, in Python's preference order (first result = the match Python
picks).  `fuel` bounds the recursion depth; every iteration of the
source's repetition bodies consumes at least one character, so a fuel of
`100 * (input length + 2)` can never be exhausted on these patterns. -/
def matchRe : Nat → Regex → MState → List MState
  | 0, _, _ => []
  | _ + 1, .eps, st => [st]
  | _ + 1, .cls f, st =>
      match st.rest with
      | [] => []
      | c :: cs => if f c then [{ st with prev := some c, rest := cs }] else []
  | n + 1, .cat a b, st => (matchRe n a st).flatMap (matchRe n b)
  | n + 1, .alt a b, st => matchRe n a st ++ matchRe n b st
  | _ + 1, .wordB, st => if isBoundary st.prev st.rest.head? then [st] else []
  | n + 1, .group r, st =>
      (matchRe n r st).map (fun st' =>
        { st' with cap := some (st.rest.take (st.rest.length - st'.rest.length)) })
  | n + 1, .rep r lo hi, st =>
      match lo, hi with
      | 0, some 0 => [st]
      | 0, _ =>
          ((matchRe n r st).flatMap (fun st' =>
            matchRe n (.rep r 0 (hi.map Nat.pred)) st')) ++ [st]
      | l + 1, _ =>
          (matchRe n r st).flatMap (fun st' =>
            matchRe n (.rep r l (hi.map Nat.pred)) st')

/-- Fuel sufficient for the source's patterns on an input of length `n`
(recursion depth per repetition iteration is far below 100 for every
pattern in the set). -/
def matchFuel (n : Nat) : Nat :=
  100 * (n + 2)

/-- `re.search`: try a match at every start position, left to right. -/
def searchAux (fuel : Nat) (r : Regex) : Option Char → List Char → Bool
  | prev, s =>
      !(matchRe fuel r { prev := prev, rest := s, cap := none }).isEmpty ||
        (match s with
         | [] => false
         | c :: cs => searchAux fuel r (some c) cs)

/-- `re.search(pattern, s) is not None`. -/
def reSearch (r : Regex) (s : String) : Bool :=
  searchAux (matchFuel s.length) r none s.toList

/-- `re.sub` body: scan left to right on the original string; at each
position take the preferred match, emit the replacement (a function of the
captured group), and continue after the match (advancing one character on a
zero-width match, as Python does).  `fuel` bounds the number of emitted
segments; `length + 1` suffices because every continuation advances. -/
def subAux (r : Regex) (repl : Option (List Char) → List Char) :
    Nat → Option Char → List Char → List Char
  | 0, _, s => s
  | f + 1, prev, s =>
      match matchRe (matchFuel s.length) r { prev := prev, rest := s, cap := none } with
      | st' :: _ =>
          if s.length - st'.rest.length = 0 then
            match s with
            | [] => repl st'.cap
            | c :: cs => repl st'.cap ++ c :: subAux r repl f (some c) cs
          else
            repl st'.cap ++ subAux r repl f st'.prev st'.rest
      | [] =>
          match s with
          | [] => []
          | c :: cs => c :: subAux r repl f (some c) cs

/-- `re.sub(pattern, repl, s)`. -/
def reSub (r : Regex) (repl : Option (List Char) → List Char) (s : String) :
    String :=
  String.mk (subAux r repl (s.length + 1) none s.toList)

/-- Concatenation of a pattern list. -/
def rcat (rs : List Regex) : Regex :=
  rs.foldr Regex.cat .eps

/-- Alternation of a pattern list (left preference). -/
def ralts (rs : List Regex) : Regex :=
  match rs with
  | [] => .eps
  | [r] => r
  | r :: rest => .alt r (ralts rest)

/-- Case-sensitive literal. -/
def rlit (s : String) : Regex :=
  rcat (s.toList.map (fun c => .cls (fun x => x == c)))

/-- Case-insensitive literal (`re.IGNORECASE`). -/
def rlitCI (s : String) : Regex :=
  rcat (s.toList.map (fun c => .cls (fun x => x.toLower == c.toLower)))

/-- A character class given by an explicit character list. -/
def roneOf (s : String) : Regex :=
  .cls (fun x => s.toList.contains x)

/-- `r?` -/
def ropt (r : Regex) : Regex := .rep r 0 (some 1)

/-- `r+` -/
def rplus (r : Regex) : Regex := .rep r 1 none

/-- `r{n}` -/
def rexact (r : Regex) (n : Nat) : Regex := .rep r n (some n)

/-- `\d` (ASCII). -/
def rdigit : Regex := .cls Char.isDigit

/-- `\s` (ASCII). -/
def rspace : Regex := roneOf " \t\n\x0b\x0c\r"

/-- `.` — any character except a newline (no `re.DOTALL`). -/
def rdot : Regex := .cls (fun c => c != '\n')

/-! ## PII redactor (processor stage 3)

Embeds `PIIRedactorModule.PATTERNS` (pii_redactor.py lines 18–50) and
`_redact_string` (lines 139–188).
-/

/-- `ssn` pattern: `\b\d{3}[-\s]?\d{2}[-\s]?\d{4}\b`. -/
def ssnPat : Regex :=
  rcat [.wordB, rexact rdigit 3, ropt (roneOf "- \t\n\x0b\x0c\r"),
        rexact rdigit 2, ropt (roneOf "- \t\n\x0b\x0c\r"),
        rexact rdigit 4, .wordB]

/-- `credit_card` pattern:
`\b(?:4[0-9]{12}(?:[0-9]{3})?|5[1-5][0-9]{14}|3[47][0-9]{13}|6(?:011|5[0-9][0-9])[0-9]{12})\b`. -/
def ccPat : Regex :=
  rcat [.wordB,
    ralts
      [rcat [rlit "4", rexact rdigit 12, ropt (rexact rdigit 3)],
       rcat [rlit "5", roneOf "12345", rexact rdigit 14],
       rcat [rlit "3", roneOf "47", rexact rdigit 13],
       rcat [rlit "6", ralts [rlit "011", rcat [rlit "5", rdigit, rdigit]],
             rexact rdigit 12]],
    .wordB]

/-- The `['\"]` class (apostrophe or double quote). -/
def rquote : Regex :=
  .cls (fun c => c == Char.ofNat 39 || c == Char.ofNat 34)

/-- `api_key` pattern (IGNORECASE):
`\b(?:api[_-]?key|apikey|secret|token|password|pwd)[\s:=]+['\"]?([a-zA-Z0-9_\-]{20,})['\"]?`. -/
def apiKeyPat : Regex :=
  rcat [.wordB,
    ralts
      [rcat [rlitCI "api", ropt (roneOf "_-"), rlitCI "key"],
       rlitCI "apikey", rlitCI "secret", rlitCI "token",
       rlitCI "password", rlitCI "pwd"],
    rplus (roneOf " \t\n\x0b\x0c\r:="),
    ropt rquote,
    .group (.rep (.cls (fun c => c.isAlphanum || c == '_' || c == '-')) 20 none),
    ropt rquote]

/-- `aws_key` pattern: `\bAKIA[0-9A-Z]{16}\b`. -/
def awsKeyPat : Regex :=
  rcat [.wordB, rlit "AKIA",
        rexact (.cls (fun c => c.isDigit || c.isUpper)) 16, .wordB]

/-- `email` pattern (IGNORECASE):
`\b[A-Za-z0-9._%+-]+@[A-Za-z0-9.-]+\.[A-Z|a-z]{2,}\b` (the last class
literally contains `|`). -/
def emailPat : Regex :=
  rcat [.wordB,
    rplus (.cls (fun c => c.isAlphanum || c == '.' || c == '_' ||
      c == '%' || c == '+' || c == '-')),
    rlit "@",
    rplus (.cls (fun c => c.isAlphanum || c == '.' || c == '-')),
    rlit ".",
    .rep (.cls (fun c => c.isAlpha || c == '|')) 2 none,
    .wordB]

/-- One IPv4 octet: `25[0-5]|2[0-4][0-9]|[01]?[0-9][0-9]?`. -/
def ipOctet : Regex :=
  ralts [rcat [rlit "25", roneOf "012345"],
         rcat [rlit "2", roneOf "01234", rdigit],
         rcat [ropt (roneOf "01"), rdigit, ropt rdigit]]

/-- `ip_address` pattern:
`\b(?:(?:25[0-5]|2[0-4][0-9]|[01]?[0-9][0-9]?)\.){3}(?:…)\b`. -/
def ipPat : Regex :=
  rcat [.wordB, rexact (rcat [ipOctet, rlit "."]) 3, ipOctet, .wordB]

/-- `[0-9a-fA-F]{1,4}` -/
def hex14 : Regex := .rep (roneOf "0123456789abcdefABCDEF") 1 (some 4)

/-- `ipv6` pattern (IGNORECASE):
`(?:(?:[0-9a-fA-F]{1,4}:){7,7}[0-9a-fA-F]{1,4}|(?:[0-9a-fA-F]{1,4}:){1,7}:|(?:[0-9a-fA-F]{1,4}:){1,6}:[0-9a-fA-F]{1,4})`. -/
def ipv6Pat : Regex :=
  ralts
    [rcat [rexact (rcat [hex14, rlit ":"]) 7, hex14],
     rcat [.rep (rcat [hex14, rlit ":"]) 1 (some 7), rlit ":"],
     rcat [.rep (rcat [hex14, rlit ":"]) 1 (some 6), rlit ":", hex14]]

/-- `username_in_path` pattern (IGNORECASE):
`(?:/home/|/Users/|C:\\Users\\)([a-zA-Z0-9_.-]+)` — the path prefix is a
NON-capturing group; group 1 is the username itself. -/
def usernamePat : Regex :=
  .cat (ralts [rlitCI "/home/", rlitCI "/Users/", rlitCI "C:\\Users\\"])
    (.group (rplus (.cls (fun c => c.isAlphanum || c == '_' || c == '.' ||
      c == '-'))))

/-- `phone` pattern:
`\b(?:\+?1[-.\s]?)?\(?[0-9]{3}\)?[-.\s]?[0-9]{3}[-.\s]?[0-9]{4}\b`. -/
def phonePat : Regex :=
  rcat [.wordB,
    ropt (rcat [ropt (rlit "+"), rlit "1", ropt (roneOf "-. \t\n\x0b\x0c\r")]),
    ropt (rlit "("), rexact rdigit 3, ropt (rlit ")"),
    ropt (roneOf "-. \t\n\x0b\x0c\r"), rexact rdigit 3,
    ropt (roneOf "-. \t\n\x0b\x0c\r"), rexact rdigit 4, .wordB]

/-- `PIIRedactorModule.__init__` flags (pii_redactor.py lines 66–84). -/
structure RedactorConfig where
  redact_emails : Bool := true
  redact_ips : Bool := true
  redact_hostnames : Bool := false
  redact_usernames : Bool := true
  deriving Repr, DecidableEq

/-- A constant replacement (no group reference). -/
def constRepl (s : String) : Option (List Char) → List Char :=
  fun _ => s.toList

/-- The `r"\1" + placeholder` replacement used for `api_key` and
`username_in_path`: group 1 followed by the placeholder text. -/
def group1Repl (placeholder : String) : Option (List Char) → List Char :=
  fun cap => cap.getD [] ++ placeholder.toList

/-- `PIIRedactorModule._redact_string` (pii_redactor.py lines 139–188):
the fixed substitution chain in source order — SSN, credit card, API key
(replacement `\1[REDACTED_SECRET]`), AWS key, then the configurable email,
IPv4, IPv6 and username-in-path (replacement `\1[REDACTED_USER]`)
substitutions, and finally phone numbers. -/
def redactString (cfg : RedactorConfig) (text : String) : String :=
  let r := text
  let r := reSub ssnPat (constRepl "[REDACTED_SSN]") r
  let r := reSub ccPat (constRepl "[REDACTED_CC]") r
  let r := reSub apiKeyPat (group1Repl "[REDACTED_SECRET]") r
  let r := reSub awsKeyPat (constRepl "[REDACTED_AWS_KEY]") r
  let r := if cfg.redact_emails then
    reSub emailPat (constRepl "[REDACTED_EMAIL]") r else r
  let r := if cfg.redact_ips then
    reSub ipv6Pat (constRepl "[REDACTED_IPV6]")
      (reSub ipPat (constRepl "[REDACTED_IP]") r) else r
  let r := if cfg.redact_usernames then
    reSub usernamePat (group1Repl "[REDACTED_USER]") r else r
  reSub phonePat (constRepl "[REDACTED_PHONE]") r

/-! ## Candidate identification (processor stage 1)

Embeds `CandidateIdentificationModule` (candidate_identification.py):
the port map, the banner patterns, `_banner_matches`, `_validate_candidate`,
`_identify_candidate` and `process`.
-/

/-- `DATABASE_PORTS` (candidate_identification.py lines 22–32). -/
def databasePorts (p : Int) : Option String :=
  if p = 3306 then some "mysql"
  else if p = 5432 then some "postgresql"
  else if p = 27017 then some "mongodb"
  else if p = 6379 then some "redis"
  else if p = 1433 then some "mssql"
  else if p = 1521 then some "oracle"
  else if p = 5984 then some "couchdb"
  else if p = 9042 then some "cassandra"
  else if p = 9200 then some "elasticsearch"
  else none

/-- `BANNER_PATTERNS` (candidate_identification.py lines 36–83), keyed by
lower-cased database type. -/
def bannerPatterns (dbType : String) : List Regex :=
  if dbType = "mysql" then
    [rlitCI "mysql", rlitCI "mariadb",
     rcat [rlitCI "5", rlitCI ".", rplus rdigit, rlitCI ".", rplus rdigit,
           .rep rdot 0 none, rlitCI "mysql"],
     rcat [rlitCI "10", rlitCI ".", rplus rdigit, rlitCI ".", rplus rdigit,
           .rep rdot 0 none, rlitCI "mariadb"]]
  else if dbType = "postgresql" then
    [rlitCI "postgresql", rlitCI "postgres", rlitCI "pg_", rlitCI "psql"]
  else if dbType = "mongodb" then
    [rlitCI "mongodb", rlitCI "mongo", rlitCI "ismaster"]
  else if dbType = "redis" then
    [rlitCI "redis",
     rcat [rlitCI "-err", .rep rdot 0 none, rlitCI "redis"],
     rlitCI "+pong"]
  else if dbType = "mssql" then
    [rlitCI "microsoft sql server", rlitCI "mssql", rlitCI "sqlserver",
     rlitCI "tds"]
  else if dbType = "oracle" then
    [rlitCI "oracle", rlitCI "tns", rcat [rlitCI "ora-", rplus rdigit]]
  else if dbType = "couchdb" then
    [rlitCI "couchdb", rlitCI "couch"]
  else if dbType = "cassandra" then
    [rlitCI "cassandra", rlitCI "datastax"]
  else if dbType = "elasticsearch" then
    [rlitCI "elasticsearch", rlitCI "elastic", rlitCI "\"cluster_name\""]
  else []

/-- `_banner_matches` (candidate_identification.py lines 232–252): empty
banners never match; otherwise the lower-cased banner is searched against
each pattern of the lower-cased type (with `re.IGNORECASE`). -/
def bannerMatches (dbType banner : String) : Bool :=
  if banner = "" then false
  else (bannerPatterns (pyLower dbType)).any
    (fun p => reSearch p (pyLower banner))

/-- The `metadata` keys touched by stage 1 (absent key = `none`). -/
structure CandidateMetadata where
  database_candidate : Option Bool := none
  candidate_type : Option String := none
  candidate_confidence : Option Rat := none
  candidate_reason : Option String := none
  validation_method : Option String := none
  banner_mismatch : Option Bool := none
  identified_by : Option String := none
  deriving Repr, DecidableEq

/-- A discovered-service event as seen by stage 1. -/
structure ServiceEvent where
  port : Option Int := none
  banner : Option String := none
  metadata : CandidateMetadata := {}
  deriving Repr, DecidableEq

/-- Python's `f"{port}"` on `data.get("port")`. -/
def portStr : Option Int → String
  | none => "None"
  | some p => toString p

/-- `CONFIDENCE_PORT_ONLY = 0.5` -/
def confidencePortOnly : Rat := 1 / 2

/-- `CONFIDENCE_PORT_AND_BANNER = 0.85` -/
def confidencePortAndBanner : Rat := 17 / 20

/-- `_validate_candidate` (candidate_identification.py lines 116–172):
skip when already at high confidence; when a banner and a candidate type
are both present, either raise the confidence on a banner match or record
the mismatch at unchanged confidence. -/
def validateCandidate (data : ServiceEvent) : ServiceEvent :=
  let md := data.metadata
  let banner := data.banner.getD ""
  let currentConfidence := md.candidate_confidence.getD confidencePortOnly
  let candidateType := md.candidate_type.getD ""
  if currentConfidence ≥ confidencePortAndBanner then data
  else if banner ≠ "" ∧ candidateType ≠ "" then
    if bannerMatches candidateType banner then
      { data with metadata := { md with
          candidate_confidence := some confidencePortAndBanner
          candidate_reason := some ("Port " ++ portStr data.port ++
            " + banner match for " ++ candidateType)
          validation_method := some "port_and_banner" } }
    else
      { data with metadata := { md with
          banner_mismatch := some true
          validation_method := some "port_only" } }
  else data

/-- `_identify_candidate` (candidate_identification.py lines 174–230):
flag unflagged services on known database ports, at 0.85 with a matching
banner and at 0.5 otherwise. -/
def identifyCandidate (data : ServiceEvent) : ServiceEvent :=
  let md := data.metadata
  let banner := data.banner.getD ""
  match data.port.bind databasePorts with
  | some dbType =>
      if banner ≠ "" ∧ bannerMatches dbType banner then
        { data with metadata := { md with
            database_candidate := some true
            candidate_type := some dbType
            candidate_confidence := some confidencePortAndBanner
            candidate_reason := some ("Port " ++ portStr data.port ++
              " + banner match for " ++ dbType)
            validation_method := some "port_and_banner"
            identified_by := some "processor" } }
      else
        { data with metadata := { md with
            database_candidate := some true
            candidate_type := some dbType
            candidate_confidence := some confidencePortOnly
            candidate_reason := some ("Port " ++ portStr data.port ++
              " matches " ++ dbType ++ " default port")
            validation_method := some "port_only"
            identified_by := some "processor" } }
  | none => data

/-- `CandidateIdentificationModule.process` (lines 89–114): validate
collector-flagged candidates (Python truthiness of
`metadata.get("database_candidate")`), otherwise try to identify one. -/
def processCandidate (data : ServiceEvent) : ServiceEvent :=
  if data.metadata.database_candidate = some true then
    validateCandidate data
  else
    identifyCandidate data

/-! ## SHA-256 (used by `CorrelationModule._generate_id`)

`hashlib.sha256(content.encode()).hexdigest()[:16]` — a full executable
SHA-256 over 32-bit words embedded as `Nat` reduced mod `2^32`. -/

namespace Sha256

/-- Truncation to a 32-bit word. -/
def w32 (n : Nat) : Nat := n % 4294967296

/-- Right rotation of a 32-bit word. -/
def rotr (n x : Nat) : Nat := w32 ((x >>> n) ||| (x <<< (32 - n)))

/-- The 64 round constants (FIPS 180-4, written in decimal). -/
def K : List Nat :=
  [1116352408, 1899447441, 3049323471, 3921009573, 961987163,
   1508970993, 2453635748, 2870763221, 3624381080, 310598401,
   607225278, 1426881987, 1925078388, 2162078206, 2614888103,
   3248222580, 3835390401, 4022224774, 264347078, 604807628,
   770255983, 1249150122, 1555081692, 1996064986, 2554220882,
   2821834349, 2952996808, 3210313671, 3336571891, 3584528711,
   113926993, 338241895, 666307205, 773529912, 1294757372,
   1396182291, 1695183700, 1986661051, 2177026350, 2456956037,
   2730485921, 2820302411, 3259730800, 3345764771, 3516065817,
   3600352804, 4094571909, 275423344, 430227734, 506948616,
   659060556, 883997877, 958139571, 1322822218, 1537002063,
   1747873779, 1955562222, 2024104815, 2227730452, 2361852424,
   2428436474, 2756734187, 3204031479, 3329325298]

/-- The initial hash value (FIPS 180-4, written in decimal). -/
def H0 : List Nat :=
  [1779033703, 3144134277, 1013904242, 2773480762,
   1359893119, 2600822924, 528734635, 1541459225]

/-- The bit length as 8 big-endian bytes. -/
def lenBytes (bits : Nat) : List Nat :=
  (List.range 8).map (fun i => (bits >>> ((7 - i) * 8)) % 256)

/-- SHA-256 padding: `0x80`, zeros to 56 mod 64, 64-bit big-endian length. -/
def padBytes (msg : List Nat) : List Nat :=
  let len := msg.length
  let zeros := (55 + 64 - (len % 64)) % 64
  msg ++ 0x80 :: List.replicate zeros 0 ++ lenBytes (len * 8)

/-- Big-endian 32-bit words from bytes. -/
def toWords : List Nat → List Nat
  | a :: b :: c :: d :: rest =>
      (a * 16777216 + b * 65536 + c * 256 + d) :: toWords rest
  | _ => []

/-- Group a word list into 16-word blocks. -/
def group16 : Nat → List Nat → List (List Nat)
  | 0, _ => []
  | _, [] => []
  | f + 1, ws => ws.take 16 :: group16 f (ws.drop 16)

/-- One message-schedule extension step: append `W[n]` computed from the
last 16 words. -/
def scheduleStep (w : List Nat) : List Nat :=
  let n := w.length
  let w15 := w.getD (n - 15) 0
  let w2 := w.getD (n - 2) 0
  let w16 := w.getD (n - 16) 0
  let w7 := w.getD (n - 7) 0
  let s0 := (rotr 7 w15) ^^^ (rotr 18 w15) ^^^ (w15 >>> 3)
  let s1 := (rotr 17 w2) ^^^ (rotr 19 w2) ^^^ (w2 >>> 10)
  w ++ [w32 (w16 + s0 + w7 + s1)]

/-- One compression round over the state `[a,b,c,d,e,f,g,h]`. -/
def round (st : List Nat) (kw : Nat × Nat) : List Nat :=
  match st with
  | [a, b, c, d, e, f, g, h] =>
      let s1 := (rotr 6 e) ^^^ (rotr 11 e) ^^^ (rotr 25 e)
      let ch := (e &&& f) ^^^ ((e ^^^ 4294967295) &&& g)
      let temp1 := w32 (h + s1 + ch + kw.1 + kw.2)
      let s0 := (rotr 2 a) ^^^ (rotr 13 a) ^^^ (rotr 22 a)
      let maj := (a &&& b) ^^^ (a &&& c) ^^^ (b &&& c)
      let temp2 := w32 (s0 + maj)
      [w32 (temp1 + temp2), a, b, c, w32 (d + temp1), e, f, g]
  | _ => st

/-- Compress one 16-word block into the running hash. -/
def compressBlock (h : List Nat) (block : List Nat) : List Nat :=
  let w := (List.range 48).foldl (fun w _ => scheduleStep w) block
  let final := (K.zip w).foldl round h
  (h.zip final).map (fun p => w32 (p.1 + p.2))

/-- Lower-case hex digit. -/
def hexDigit (n : Nat) : Char :=
  "0123456789abcdef".toList.getD n '0'

/-- A 32-bit word as 8 hex digits. -/
def wordHex (w : Nat) : List Char :=
  (List.range 8).map (fun i => hexDigit ((w >>> ((7 - i) * 4)) % 16))

/-- `hashlib.sha256(s.encode()).hexdigest()` for an ASCII string. -/
def hexdigest (s : String) : String :=
  let bytes := s.toList.map Char.toNat
  let padded := padBytes bytes
  let blocks := group16 (padded.length + 1) (toWords padded)
  String.mk ((blocks.foldl compressBlock H0).flatMap wordHex)

end Sha256

/-! ## Correlation (processor stage 5)

Embeds `CorrelationModule` (correlation.py): entity-type detection, the
five correlate functions, deterministic entity IDs, the process-local
store, deduplication, and `process`.  The docstring of the source class
states: "This module is idempotent - running it multiple times on the same
data produces the same result."
-/

/-- A Python value passed to `_generate_id` (string, int, or `None`). -/
inductive PyArg where
  | str (s : String)
  | int (n : Int)
  | noneV
  deriving Repr, DecidableEq

/-- Python truthiness of a `_generate_id` part (`if p`). -/
def PyArg.truthy : PyArg → Bool
  | .str s => !s.isEmpty
  | .int n => n != 0
  | .noneV => false

/-- Python `str(p)`. -/
def PyArg.toStr : PyArg → String
  | .str s => s
  | .int n => toString n
  | .noneV => "None"

/-- An optional string field as a `_generate_id` argument. -/
def optStrArg : Option String → PyArg
  | none => .noneV
  | some s => .str s

/-- An optional int field as a `_generate_id` argument. -/
def optIntArg : Option Int → PyArg
  | none => .noneV
  | some n => .int n

/-- `_generate_id` (correlation.py lines 362–365): join the truthy parts
with `:` and take the first 16 hex digits of the SHA-256. -/
def generateId (parts : List PyArg) : String :=
  let content :=
    String.intercalate ":" ((parts.filter PyArg.truthy).map PyArg.toStr)
  (Sha256.hexdigest content).take 16

/-- Python truthiness of an optional string (`if server_id:` …). -/
def truthyStr (o : Option String) : Bool :=
  !(o.getD "").isEmpty

/-- Python truthiness of an optional int (`if host and port:` …). -/
def truthyInt (o : Option Int) : Bool :=
  o.getD 0 != 0

/-- One entry of `extracted_connections` (the `type` key is `ctype`). -/
structure ConnEntry where
  host : Option String := none
  port : Option Int := none
  ctype : Option String := none
  deriving Repr, DecidableEq

/-- One entry of `dependencies`: a dict (with its `name` key) or any other
value, which the source renders with `str(dep)`. -/
inductive DepEntry where
  | dict (name : Option String)
  | other (s : String)
  deriving Repr, DecidableEq

/-- A correlated relationship (the `type` key is `rtype`). -/
structure Relationship where
  rtype : String
  source_id : String
  source_type : String
  target_id : String
  target_type : String
  confidence : Rat
  evidence : String
  deriving Repr, DecidableEq

/-- The event-data keys `CorrelationModule` reads or writes (absent key =
`none`; nested `enrichment.entity_label` and `metadata.*` keys are
flattened into prefixed fields). -/
structure CorrData where
  enrichment_entity_label : Option String := none
  repository_url : Option String := none
  analysis_id : Option String := none
  db_type : Option String := none
  database_type : Option String := none
  port : Option Int := none
  service : Option String := none
  ip : Option String := none
  host : Option String := none
  ip_addresses : Option (List String) := none
  server_id : Option String := none
  service_id : Option String := none
  db_id : Option String := none
  database_id : Option String := none
  probe_id : Option String := none
  target_ip : Option String := none
  extracted_connections : List ConnEntry := []
  dependencies : List DepEntry := []
  metadata_database_candidate : Option Bool := none
  metadata_candidate_type : Option String := none
  metadata_candidate_confidence : Option Rat := none
  metadata_candidate_reason : Option String := none
  correlated_relationships : Option (List Relationship) := none
  deriving Repr, DecidableEq

/-- `_detect_entity_type` (correlation.py lines 99–129): enrichment label
keywords first (Python substring `in`), then data-shape fallbacks. -/
def detectEntityType (d : CorrData) : String :=
  let label := pyLower (d.enrichment_entity_label.getD "")
  let fallback :=
    if d.repository_url.isSome || d.analysis_id.isSome then "repository"
    else if d.db_type.isSome || d.database_type.isSome then "database"
    else if d.port.isSome && d.service.isSome then "service"
    else if d.ip_addresses.isSome || d.server_id.isSome then "server"
    else if d.probe_id.isSome then "infrastructure"
    else "unknown"
  if !label.isEmpty then
    if strContains label "database" then "database"
    else if strContains label "repository" || strContains label "application"
      then "repository"
    else if strContains label "server" then "server"
    else if strContains label "service" then "service"
    else if strContains label "infrastructure" then "infrastructure"
    else fallback
  else fallback

/-- The `data` sub-dict stored per entity by `_store_entity`. -/
structure StoredData where
  ip : Option String := none
  ip_addresses : List String := []
  host : Option String := none
  port : Option Int := none
  connections : List ConnEntry := []
  deriving Repr, DecidableEq

/-- An entry of the correlation store. -/
structure StoredEntity where
  id : String
  etype : String
  data : StoredData
  deriving Repr, DecidableEq

/-- The process-local correlation store: a Python dict keyed by entity ID
(insertion-ordered; update-in-place on an existing key). -/
abbrev CorrStore := List (String × StoredEntity)

/-- Python-dict assignment `store[k] = v`. -/
def storeSet (store : CorrStore) (k : String) (v : StoredEntity) :
    CorrStore :=
  if store.any (fun p => p.1 == k) then
    store.map (fun p => if p.1 == k then (k, v) else p)
  else store ++ [(k, v)]

/-- A deterministic stand-in for Python's `str(data)` rendering of the full
event dict, used by `_get_entity_id` only in its final fallback (an entity
type outside the five known ones). -/
def dictRepr (d : CorrData) : String :=
  (repr d).pretty

/-- `_get_entity_id` (correlation.py lines 328–360): prefer the existing ID
field of the entity type, else generate a deterministic ID from the
identifying fields. -/
def getEntityId (d : CorrData) (entityType : String) : String :=
  if entityType = "repository" then
    match d.analysis_id with
    | some v => v
    | none => generateId [.str "repository", .str (d.repository_url.getD "")]
  else if entityType = "service" then
    match d.service_id with
    | some v => v
    | none => generateId [.str "service", optStrArg d.ip, optIntArg d.port,
        optStrArg d.service]
  else if entityType = "database" then
    match d.db_id with
    | some v => v
    | none =>
      match d.database_id with
      | some v => v
      | none => generateId [.str "database", optStrArg d.db_type,
          optStrArg d.host, optIntArg d.port]
  else if entityType = "server" then
    match d.server_id with
    | some v => v
    | none => generateId (.str "server" ::
        (d.ip_addresses.getD []).map PyArg.str)
  else if entityType = "infrastructure" then
    match d.probe_id with
    | some v => v
    | none => generateId [.str "infrastructure", optStrArg d.target_ip]
  else generateId [.str entityType, .str (dictRepr d)]

/-- `_find_entity_by_ip` (correlation.py lines 383–391). -/
def findEntityByIp (store : CorrStore) (ip : String) : Option StoredEntity :=
  (store.map (·.2)).find? (fun e =>
    e.data.ip == some ip || e.data.ip_addresses.contains ip)

/-- `_find_services_on_ip` (correlation.py lines 393–400). -/
def findServicesOnIp (store : CorrStore) (ip : String) : List StoredEntity :=
  (store.map (·.2)).filter (fun e =>
    e.etype == "service" && e.data.ip == some ip)

/-- `_find_services_connecting_to` (correlation.py lines 402–413). -/
def findServicesConnectingTo (store : CorrStore) (host : String)
    (port : Option Int) : List StoredEntity :=
  (store.map (·.2)).filter (fun e =>
    e.data.connections.any (fun c => c.host == some host && c.port == port))

/-- `_correlate_repository` (correlation.py lines 131–175). -/
def correlateRepository (d : CorrData) : List Relationship :=
  let repoId := getEntityId d "repository"
  let connRels := d.extracted_connections.filterMap (fun conn =>
    if truthyStr conn.host then
      some { rtype := "connects_to"
             source_id := repoId
             source_type := "repository"
             target_id := generateId [.str "service", optStrArg conn.host,
               optIntArg conn.port]
             target_type := conn.ctype.getD "service"
             confidence := 4 / 5
             evidence := "Connection to " ++ (conn.host.getD "") ++ ":" ++
               portStr conn.port }
    else none)
  let depRels := d.dependencies.filterMap (fun dep =>
    let depName := match dep with
      | .dict n => n.getD ""
      | .other s => s
    if !depName.isEmpty then
      some { rtype := "depends_on"
             source_id := repoId
             source_type := "repository"
             target_id := generateId [.str "dependency", .str depName]
             target_type := "dependency"
             confidence := 1
             evidence := "Dependency: " ++ depName }
    else none)
  connRels ++ depRels

/-- `_correlate_service` (correlation.py lines 177–236). -/
def correlateService (d : CorrData) (store : CorrStore) : List Relationship :=
  let serviceId := getEntityId d "service"
  let hostRels : List Relationship :=
    if truthyStr d.server_id then
      [{ rtype := "deployed_on"
         source_id := serviceId
         source_type := "service"
         target_id := d.server_id.getD ""
         target_type := "server"
         confidence := 1
         evidence := "Same server_id" }]
    else if truthyStr d.ip then
      match findEntityByIp store (d.ip.getD "") with
      | some server =>
          [{ rtype := "deployed_on"
             source_id := serviceId
             source_type := "service"
             target_id := server.id
             target_type := "server"
             confidence := 9 / 10
             evidence := "IP match: " ++ (d.ip.getD "") }]
      | none => []
    else []
  let dbRels : List Relationship :=
    if d.metadata_database_candidate = some true then
      [{ rtype := "uses"
         source_id := serviceId
         source_type := "service"
         target_id := generateId [.str "database",
           optStrArg d.metadata_candidate_type, optStrArg d.ip,
           optIntArg d.port]
         target_type := "database"
         confidence := d.metadata_candidate_confidence.getD (1 / 2)
         evidence := d.metadata_candidate_reason.getD
           "Database port detected" }]
    else []
  hostRels ++ dbRels

/-- `_correlate_database` (correlation.py lines 238–262). -/
def correlateDatabase (d : CorrData) (store : CorrStore) : List Relationship :=
  let dbId := getEntityId d "database"
  if truthyStr d.host && truthyInt d.port then
    (findServicesConnectingTo store (d.host.getD "") d.port).map
      (fun service =>
        { rtype := "connects_to"
          source_id := service.id
          source_type := service.etype
          target_id := dbId
          target_type := "database"
          confidence := 17 / 20
          evidence := "Connection to " ++ (d.host.getD "") ++ ":" ++
            portStr d.port })
  else []

/-- `_correlate_server` (correlation.py lines 264–286). -/
def correlateServer (d : CorrData) (store : CorrStore) : List Relationship :=
  let serverId := getEntityId d "server"
  (d.ip_addresses.getD []).flatMap (fun ip =>
    (findServicesOnIp store ip).map (fun service =>
      { rtype := "hosts"
        source_id := serverId
        source_type := "server"
        target_id := service.id
        target_type := "service"
        confidence := 19 / 20
        evidence := "Service on IP " ++ ip }))

/-- `_correlate_infrastructure` (correlation.py lines 288–326). -/
def correlateInfrastructure (d : CorrData) (store : CorrStore) :
    List Relationship :=
  let infraId := getEntityId d "infrastructure"
  if truthyStr d.server_id then
    [{ rtype := "part_of"
       source_id := infraId
       source_type := "infrastructure"
       target_id := d.server_id.getD ""
       target_type := "server"
       confidence := 1
       evidence := "Same server_id" }]
  else if truthyStr d.target_ip then
    match findEntityByIp store (d.target_ip.getD "") with
    | some server =>
        [{ rtype := "part_of"
           source_id := infraId
           source_type := "infrastructure"
           target_id := server.id
           target_type := "server"
           confidence := 9 / 10
           evidence := "IP match: " ++ (d.target_ip.getD "") }]
    | none => []
  else []

/-- `_deduplicate_relationships` (correlation.py lines 415–432): keep the
first occurrence of each `(type, source_id, target_id)` key. -/
def dedupRels (rels : List Relationship) : List Relationship :=
  (rels.foldl (fun acc r =>
    let key := (r.rtype, r.source_id, r.target_id)
    if acc.1.contains key then acc
    else (acc.1 ++ [key], acc.2 ++ [r]))
    (([] : List (String × String × String)), ([] : List Relationship))).2

/-- `_store_entity` (correlation.py lines 367–381). -/
def storeEntity (d : CorrData) (entityType : String) (store : CorrStore) :
    CorrStore :=
  let entityId := getEntityId d entityType
  storeSet store entityId
    { id := entityId
      etype := entityType
      data := { ip := d.ip
                ip_addresses := d.ip_addresses.getD []
                host := d.host
                port := d.port
                connections := d.extracted_connections } }

/-- `CorrelationModule.process` (correlation.py lines 52–97): detect the
entity type, correlate, deduplicate, always assign
`correlated_relationships` (possibly `[]`), then store the entity for
future correlation.  The store is the module's mutable `self._store`,
threaded explicitly. -/
def corrProcess (d : CorrData) (store : CorrStore) : CorrData × CorrStore :=
  let entityType := detectEntityType d
  let rels :=
    if entityType = "repository" then correlateRepository d
    else if entityType = "service" then correlateService d store
    else if entityType = "database" then correlateDatabase d store
    else if entityType = "server" then correlateServer d store
    else if entityType = "infrastructure" then correlateInfrastructure d store
    else []
  let unique := dedupRels rels
  let result := { d with correlated_relationships := some unique }
  (result, storeEntity d entityType store)

/-! ## Test-environment generator

Embeds `scripts/testenv/pools.py`, `utils.py`, `generator.py` and
`manifest.py`.  CPython's Mersenne-Twister PRNG is an external
collaborator: it is modelled as an abstract numeric stream derived from
the seed (`random.seed(seed)` guarantees the same seed yields the same
stream), with the `random.*` primitives as deterministic functions of that
stream.  The unbounded retry loops (`random_ip`, `get_host_port`) carry
fuel; exhausting it makes the whole generation return `none`.
-/

/-- The raw numeric stream drawn from the seeded PRNG. -/
abbrev RandStream := Nat → Nat

/-- A PRNG handle: the stream plus the consumption position. -/
structure Rng where
  stream : RandStream
  pos : Nat

/-- Draw one raw number. -/
def Rng.next (g : Rng) : Nat × Rng :=
  (g.stream g.pos, { g with pos := g.pos + 1 })

/-- `random.randint(lo, hi)` (inclusive). -/
def randint (lo hi : Nat) (g : Rng) : Nat × Rng :=
  let (r, g) := g.next
  (lo + r % (hi - lo + 1), g)

/-- `random.choice(xs)` on a non-empty list. -/
def rchoice {α : Type} (xs : List α) (default : α) (g : Rng) : α × Rng :=
  let (r, g) := g.next
  (xs.getD (r % xs.length) default, g)

/-- `random.sample(xs, k)`: `k` distinct elements, drawn without
replacement. -/
def rsample {α : Type} : Nat → List α → Rng → List α × Rng
  | 0, _, g => ([], g)
  | k + 1, xs, g =>
      if xs.isEmpty then ([], g)
      else
        let (r, g) := g.next
        let i := r % xs.length
        match xs.get? i with
        | none => ([], g)
        | some x =>
            let (rest, g) := rsample k (xs.take i ++ xs.drop (i + 1)) g
            (x :: rest, g)

/-- `string.ascii_letters + string.digits` (the `generate_password`
alphabet). -/
def passwordAlphabet : List Char :=
  "abcdefghijklmnopqrstuvwxyzABCDEFGHIJKLMNOPQRSTUVWXYZ0123456789".toList

/-- `generate_password()` (utils.py lines 34–36): 16 characters via
`random.choices`. -/
def generatePassword (g : Rng) : String × Rng :=
  let step : List Char × Rng → Nat → List Char × Rng := fun acc _ =>
    let (cs, g) := acc
    let (c, g) := rchoice passwordAlphabet 'a' g
    (cs ++ [c], g)
  let (cs, g) := (List.range 16).foldl step ([], g)
  (String.mk cs, g)

/-- `DEPARTMENT_NAMES` (pools.py lines 102–118). -/
def DEPARTMENT_NAMES : List String :=
  ["erp", "crm", "hrms", "finance", "inventory", "analytics", "billing",
   "logistics", "procurement", "manufacturing", "warehouse", "ecommerce",
   "marketing", "support", "legacy"]

/-- `COMPANY_PREFIXES` (pools.py lines 120–131). -/
def COMPANY_PREFIXES : List String :=
  ["acme", "globex", "initech", "umbrella", "waynetech", "starkindustries",
   "oscorp", "lexcorp", "cyberdyne", "tyrell"]

/-- One pool entry (`lang` for app servers, `dbtype` for the databases'
`type` key). -/
structure ServiceSpec where
  image : String
  ports : List String
  name : String
  lang : Option String := none
  dbtype : Option String := none
  deriving Repr, DecidableEq

/-- `WEB_SERVERS` (pools.py lines 8–13). -/
def WEB_SERVERS : List ServiceSpec :=
  [{ image := "nginx:alpine", ports := ["80", "443"], name := "nginx" },
   { image := "httpd:alpine", ports := ["80", "443"], name := "apache" },
   { image := "caddy:alpine", ports := ["80", "443"], name := "caddy" },
   { image := "traefik:v2.10", ports := ["80", "8080"], name := "traefik" }]

/-- `APP_SERVERS` (pools.py lines 15–45). -/
def APP_SERVERS : List ServiceSpec :=
  [{ image := "python:3.11-slim", ports := ["5000"], name := "flask",
     lang := some "python" },
   { image := "python:3.11-slim", ports := ["8000"], name := "django",
     lang := some "python" },
   { image := "node:20-slim", ports := ["3000"], name := "express",
     lang := some "node" },
   { image := "node:20-slim", ports := ["3000"], name := "nextjs",
     lang := some "node" },
   { image := "eclipse-temurin:17-jdk-alpine", ports := ["8080"],
     name := "springboot", lang := some "java" },
   { image := "eclipse-temurin:17-jdk-alpine", ports := ["8080"],
     name := "quarkus", lang := some "java" },
   { image := "mcr.microsoft.com/dotnet/aspnet:8.0", ports := ["5000"],
     name := "dotnet", lang := some "dotnet" },
   { image := "ruby:3.2-slim", ports := ["3000"], name := "rails",
     lang := some "ruby" },
   { image := "golang:1.21-alpine", ports := ["8080"], name := "goapi",
     lang := some "go" }]

/-- `DATABASES` (pools.py lines 47–84). -/
def DATABASES : List ServiceSpec :=
  [{ image := "postgres:16", ports := ["5432"], name := "postgresql",
     dbtype := some "relational" },
   { image := "postgres:15", ports := ["5432"], name := "postgresql15",
     dbtype := some "relational" },
   { image := "mysql:8", ports := ["3306"], name := "mysql",
     dbtype := some "relational" },
   { image := "mariadb:11", ports := ["3306"], name := "mariadb",
     dbtype := some "relational" },
   { image := "mongo:7", ports := ["27017"], name := "mongodb",
     dbtype := some "document" },
   { image := "mongo:6", ports := ["27017"], name := "mongodb6",
     dbtype := some "document" },
   { image := "redis:7-alpine", ports := ["6379"], name := "redis",
     dbtype := some "cache" },
   { image := "memcached:alpine", ports := ["11211"], name := "memcached",
     dbtype := some "cache" },
   { image := "elasticsearch:8.11.0", ports := ["9200", "9300"],
     name := "elasticsearch", dbtype := some "search" },
   { image := "cassandra:4", ports := ["9042"], name := "cassandra",
     dbtype := some "wide-column" },
   { image := "couchdb:3", ports := ["5984"], name := "couchdb",
     dbtype := some "document" }]

/-- `MESSAGE_QUEUES` (pools.py lines 86–91). -/
def MESSAGE_QUEUES : List ServiceSpec :=
  [{ image := "rabbitmq:3-management", ports := ["5672", "15672"],
     name := "rabbitmq" },
   { image := "apache/kafka:3.6.0", ports := ["9092"], name := "kafka" },
   { image := "nats:alpine", ports := ["4222", "8222"], name := "nats" },
   { image := "eclipse-mosquitto:2", ports := ["1883", "9001"],
     name := "mqtt" }]

/-- `INFRASTRUCTURE` (pools.py lines 93–100). -/
def INFRASTRUCTURE : List ServiceSpec :=
  [{ image := "vault:1.15", ports := ["8200"], name := "vault" },
   { image := "consul:1.17", ports := ["8500", "8600"], name := "consul" },
   { image := "minio/minio:latest", ports := ["9000", "9001"],
     name := "minio" },
   { image := "registry:2", ports := ["5000"], name := "docker-registry" },
   { image := "grafana/grafana:latest", ports := ["3000"],
     name := "grafana" },
   { image := "prom/prometheus:latest", ports := ["9090"],
     name := "prometheus" }]

/-- Python's `f"{i:02d}"` for the small indexes used here. -/
def fmt02 (n : Nat) : String :=
  if n < 10 then "0" ++ toString n else toString n

/-- `generate_service_name(base, index)` (utils.py lines 28–31). -/
def generateServiceName (baseName : String) (index : Nat) (g : Rng) :
    String × Rng :=
  let (dept, g) := rchoice DEPARTMENT_NAMES "" g
  ("target-" ++ dept ++ "-" ++ baseName ++ "-" ++ fmt02 index, g)

/-- `random_ip` (utils.py lines 18–25): draw `randint(10, 250)` octets in
`172.28.0.0/24` until one is unused; returns the IP, the grown used set and
the advanced PRNG (`none` when the fuel is exhausted, which a real run
reaches with probability zero). -/
def randomIpAux (usedIps : List String) (g : Rng) :
    Nat → Option (String × List String × Rng)
  | 0 => none
  | f + 1 =>
      let (r, g) := randint 10 250 g
      let ip := "172.28.0." ++ toString r
      if usedIps.contains ip then randomIpAux usedIps g f
      else some (ip, usedIps ++ [ip], g)

/-- Fuel for `random_ip` retries. -/
def ipFuel : Nat := 1000

/-- The `get_host_port` closure (generator.py lines 56–65): starting from
the current `port_offset`, find the first `base + offset` not in
`used_ports`; the offset advances past the found port. -/
def getHostPortAux (base : Nat) (usedPorts : List Nat) (offset : Nat) :
    Nat → Option (Nat × List Nat × Nat)
  | 0 => none
  | f + 1 =>
      let hp := base + offset
      if usedPorts.contains hp then getHostPortAux base usedPorts (offset + 1) f
      else some (hp, usedPorts ++ [hp], offset + 1)

/-- `generate_database_env(db_type, db_name)` (utils.py lines 39–70);
the password and user are drawn before the branch. -/
def generateDatabaseEnv (dbType dbName : String) (g : Rng) :
    List (String × String) × Rng :=
  let (password, g) := generatePassword g
  let (dept, g) := rchoice DEPARTMENT_NAMES "" g
  let user := dept ++ "_user"
  if strContains dbType "postgres" then
    ([("POSTGRES_USER", user), ("POSTGRES_PASSWORD", password),
      ("POSTGRES_DB", dbName ++ "_db")], g)
  else if strContains dbType "mysql" || strContains dbType "mariadb" then
    let (rootPw, g) := generatePassword g
    ([("MYSQL_ROOT_PASSWORD", rootPw), ("MYSQL_DATABASE", dbName ++ "_db"),
      ("MYSQL_USER", user), ("MYSQL_PASSWORD", password)], g)
  else if strContains dbType "mongo" then
    ([("MONGO_INITDB_ROOT_USERNAME", user),
      ("MONGO_INITDB_ROOT_PASSWORD", password)], g)
  else if strContains dbType "elasticsearch" then
    ([("discovery.type", "single-node"), ("xpack.security.enabled", "false"),
      ("ES_JAVA_OPTS", "-Xms256m -Xmx256m")], g)
  else if strContains dbType "couchdb" then
    ([("COUCHDB_USER", user), ("COUCHDB_PASSWORD", password)], g)
  else ([], g)

/-- A single apostrophe as a string. -/
def apos : String := String.mk [Char.ofNat 39]

/-- One docker-compose service block as built by the generator. -/
structure ComposeService where
  image : String
  container_name : String
  ipv4_address : String
  ports : List String
  labels : List (String × String)
  command : Option String := none
  environment : Option (List (String × String)) := none
  deriving Repr, DecidableEq

/-- The generated docker-compose document. -/
structure ComposeFile where
  version : String
  services : List (String × ComposeService)
  networkSubnet : String
  networkGateway : String
  deriving Repr, DecidableEq

/-- Python's `int()` on the decimal container-port strings of the pools. -/
def decToNat (s : String) : Nat :=
  s.toList.foldl (fun acc c => acc * 10 + (c.toNat - 48)) 0

/-- Python-dict assignment on a string-keyed dict. -/
def pydictSet {α : Type} (d : List (String × α)) (k : String) (v : α) :
    List (String × α) :=
  if d.any (fun p => p.1 == k) then
    d.map (fun p => if p.1 == k then (k, v) else p)
  else d ++ [(k, v)]

/-- Threaded generation state: the `used_ips` set, `used_ports` set,
`port_offset`, the services dict, and the PRNG. -/
structure GenState where
  usedIps : List String
  usedPorts : List Nat
  portOffset : Nat
  services : List (String × ComposeService)
  rng : Rng

/-- Assign a host port for each container port of one service
(generator.py, the `ports` loops).  The fuel `|used| + 1` always suffices:
candidates `base + offset` are distinct across iterations and every failed
candidate is a member of `used_ports`. -/
def assignPorts : List String → List Nat → Nat →
    Option (List String × List Nat × Nat)
  | [], used, off => some ([], used, off)
  | p :: rest, used, off =>
      match getHostPortAux (decToNat p) used off (used.length + 1) with
      | none => none
      | some (hp, used', off') =>
          match assignPorts rest used' off' with
          | none => none
          | some (ps, usedF, offF) =>
              some ((toString hp ++ ":" ++ p) :: ps, usedF, offF)

/-- The web-server loop (generator.py lines 67–87). -/
def genWebLoop : List ServiceSpec → Nat → GenState → Option GenState
  | [], _, st => some st
  | spec :: rest, i, st =>
      let (name, g) := generateServiceName spec.name (i + 1) st.rng
      match randomIpAux st.usedIps g ipFuel with
      | none => none
      | some (ip, usedIps, g) =>
          match assignPorts spec.ports st.usedPorts st.portOffset with
          | none => none
          | some (ports, usedPorts, portOffset) =>
              let svc : ComposeService :=
                { image := spec.image, container_name := name,
                  ipv4_address := ip, ports := ports,
                  labels := [("discovery.type", "web-server"),
                             ("discovery.technology", spec.name)] }
              genWebLoop rest (i + 1)
                { usedIps := usedIps, usedPorts := usedPorts,
                  portOffset := portOffset,
                  services := pydictSet st.services name svc, rng := g }

/-- The app-server loop (generator.py lines 89–113). -/
def genAppLoop : List ServiceSpec → Nat → GenState → Option GenState
  | [], _, st => some st
  | spec :: rest, i, st =>
      let (name, g) := generateServiceName spec.name (i + 1) st.rng
      match randomIpAux st.usedIps g ipFuel with
      | none => none
      | some (ip, usedIps, g) =>
          match assignPorts spec.ports st.usedPorts st.portOffset with
          | none => none
          | some (ports, usedPorts, portOffset) =>
              let svc : ComposeService :=
                { image := spec.image, container_name := name,
                  ipv4_address := ip, ports := ports,
                  labels := [("discovery.type", "app-server"),
                             ("discovery.technology", spec.name),
                             ("discovery.language", spec.lang.getD "")],
                  command := some "tail -f /dev/null" }
              genAppLoop rest (i + 1)
                { usedIps := usedIps, usedPorts := usedPorts,
                  portOffset := portOffset,
                  services := pydictSet st.services name svc, rng := g }

/-- The database loop (generator.py lines 115–143). -/
def genDbLoop : List ServiceSpec → Nat → GenState → Option GenState
  | [], _, st => some st
  | spec :: rest, i, st =>
      let (dept, g) := rchoice DEPARTMENT_NAMES "" st.rng
      let name := "target-" ++ dept ++ "-" ++ spec.name ++ "-" ++ fmt02 (i + 1)
      match randomIpAux st.usedIps g ipFuel with
      | none => none
      | some (ip, usedIps, g) =>
          match assignPorts spec.ports st.usedPorts st.portOffset with
          | none => none
          | some (ports, usedPorts, portOffset) =>
              let (env, g) := generateDatabaseEnv spec.name dept g
              let svc : ComposeService :=
                { image := spec.image, container_name := name,
                  ipv4_address := ip, ports := ports,
                  labels := [("discovery.type", "database"),
                             ("discovery.technology", spec.name),
                             ("discovery.db-type", spec.dbtype.getD "")],
                  environment := if env.isEmpty then none else some env }
              genDbLoop rest (i + 1)
                { usedIps := usedIps, usedPorts := usedPorts,
                  portOffset := portOffset,
                  services := pydictSet st.services name svc, rng := g }

/-- The message-queue loop (generator.py lines 146–168). -/
def genQueueLoop : List ServiceSpec → Nat → GenState → Option GenState
  | [], _, st => some st
  | spec :: rest, i, st =>
      let (name, g) := generateServiceName spec.name (i + 1) st.rng
      match randomIpAux st.usedIps g ipFuel with
      | none => none
      | some (ip, usedIps, g) =>
          match assignPorts spec.ports st.usedPorts st.portOffset with
          | none => none
          | some (ports, usedPorts, portOffset) =>
              let svc : ComposeService :=
                { image := spec.image, container_name := name,
                  ipv4_address := ip, ports := ports,
                  labels := [("discovery.type", "message-queue"),
                             ("discovery.technology", spec.name)] }
              genQueueLoop rest (i + 1)
                { usedIps := usedIps, usedPorts := usedPorts,
                  portOffset := portOffset,
                  services := pydictSet st.services name svc, rng := g }

/-- The infrastructure loop (generator.py lines 171–203), with the `minio`
special case. -/
def genInfraLoop : List ServiceSpec → Nat → GenState → Option GenState
  | [], _, st => some st
  | spec :: rest, i, st =>
      let (name, g) := generateServiceName spec.name (i + 1) st.rng
      match randomIpAux st.usedIps g ipFuel with
      | none => none
      | some (ip, usedIps, g) =>
          match assignPorts spec.ports st.usedPorts st.portOffset with
          | none => none
          | some (ports, usedPorts, portOffset) =>
              let base : ComposeService :=
                { image := spec.image, container_name := name,
                  ipv4_address := ip, ports := ports,
                  labels := [("discovery.type", "infrastructure"),
                             ("discovery.technology", spec.name)] }
              let (svc, g) :=
                if spec.name = "minio" then
                  let (pfx, g) := rchoice COMPANY_PREFIXES "" g
                  let (pw, g) := generatePassword g
                  ({ base with
                     command := some ("server /data --console-address " ++
                       apos ++ ":9001" ++ apos)
                     environment := some
                       [("MINIO_ROOT_USER", pfx ++ "_admin"),
                        ("MINIO_ROOT_PASSWORD", pw)] }, g)
                else (base, g)
              genInfraLoop rest (i + 1)
                { usedIps := usedIps, usedPorts := usedPorts,
                  portOffset := portOffset,
                  services := pydictSet st.services name svc, rng := g }

/-- The body of `generate_environment` after seeding (generator.py lines
42–219): pick the category counts, sample each pool, run the five loops in
order, and assemble the compose document with the fixed network block. -/
def genCompose (g : Rng) : Option ComposeFile :=
  let (numWeb, g) := randint 1 2 g
  let (numApp, g) := randint 1 2 g
  let (numDb, g) := randint 1 2 g
  let (numQ, g) := randint 0 1 g
  let (numInfra, g) := randint 0 1 g
  let (selWeb, g) := rsample (min numWeb WEB_SERVERS.length) WEB_SERVERS g
  let st : GenState :=
    { usedIps := ["172.28.0.1"], usedPorts := [], portOffset := 0,
      services := [], rng := g }
  match genWebLoop selWeb 0 st with
  | none => none
  | some st =>
    let (selApps, g) := rsample (min numApp APP_SERVERS.length) APP_SERVERS st.rng
    match genAppLoop selApps 0 { st with rng := g } with
    | none => none
    | some st =>
      let (selDbs, g) := rsample (min numDb DATABASES.length) DATABASES st.rng
      match genDbLoop selDbs 0 { st with rng := g } with
      | none => none
      | some st =>
        let next1 : Option GenState :=
          if numQ > 0 then
            let (selQ, g) := rsample (min numQ MESSAGE_QUEUES.length)
              MESSAGE_QUEUES st.rng
            genQueueLoop selQ 0 { st with rng := g }
          else some st
        match next1 with
        | none => none
        | some st =>
          let next2 : Option GenState :=
            if numInfra > 0 then
              let (selI, g) := rsample (min numInfra INFRASTRUCTURE.length)
                INFRASTRUCTURE st.rng
              genInfraLoop selI 0 { st with rng := g }
            else some st
          match next2 with
          | none => none
          | some st =>
            some { version := "3.8", services := st.services,
                   networkSubnet := "172.28.0.0/24",
                   networkGateway := "172.28.0.1" }

/-- `generate_environment(seed)` (generator.py lines 28–41 plus body):
when no seed is given the wall clock is the seed; `random.seed(seed)`
makes the PRNG stream a function of the seed alone (`streamOf`). -/
def generateEnvironment (seedOpt : Option Int) (now : Int)
    (streamOf : Int → RandStream) : Option (ComposeFile × Int) :=
  let seed := match seedOpt with | none => now | some s => s
  (genCompose { stream := streamOf seed, pos := 0 }).map (fun c => (c, seed))

/-- Label lookup (`config.get("labels", {}).get(key)`). -/
def labelGet (labels : List (String × String)) (k : String) :
    Option String :=
  (labels.find? (fun p => p.1 == k)).map (·.2)

/-- One manifest `services[]` entry (`type` key is `mtype`). -/
structure ManifestEntry where
  name : String
  ip : String
  mtype : String
  technology : String
  ports : List String
  deriving Repr, DecidableEq

/-- The manifest document (summary counts flattened). -/
structure Manifest where
  generated_at : String
  seed : Int
  total_services : Nat
  web_servers : Nat
  app_servers : Nat
  databases : Nat
  message_queues : Nat
  infrastructure : Nat
  services : List ManifestEntry
  deriving Repr, DecidableEq

/-- Count the services with a given `discovery.type` label. -/
def countType (svcs : List (String × ComposeService)) (t : String) : Nat :=
  (svcs.filter (fun p => labelGet p.2.labels "discovery.type" == some t)).length

/-- `generate_manifest(compose, seed)` (manifest.py lines 11–71); `now` is
the `datetime.now().isoformat()` wall-clock string. -/
def generateManifest (compose : ComposeFile) (seed : Int) (now : String) :
    Manifest :=
  { generated_at := now
    seed := seed
    total_services := compose.services.length
    web_servers := countType compose.services "web-server"
    app_servers := countType compose.services "app-server"
    databases := countType compose.services "database"
    message_queues := countType compose.services "message-queue"
    infrastructure := countType compose.services "infrastructure"
    services := compose.services.map (fun p =>
      { name := p.1
        ip := p.2.ipv4_address
        mtype := (labelGet p.2.labels "discovery.type").getD "unknown"
        technology := (labelGet p.2.labels "discovery.technology").getD
          "unknown"
        ports := p.2.ports }) }

/-- A manifest with its `generated_at` field blanked. -/
def eraseGeneratedAt (m : Manifest) : Manifest :=
  { m with generated_at := "" }

/-! ## Concrete inputs used by the claim theorems -/

/-- The S6 scenario: five repositories, the third raises; the survivors
extract 0, 1, 2 and 3 dependencies, so they publish
`(2+0) + (2+1) + (2+2) + (2+3) = 14` events. -/
def s6Targets : List RepoTarget :=
  [{ name := "repo1", outcome := .ok 0 },
   { name := "repo2", outcome := .ok 1 },
   { name := "repo3", outcome := .raiseErr "boom" },
   { name := "repo4", outcome := .ok 2 },
   { name := "repo5", outcome := .ok 3 }]

/-- An environment carrying both required URLs but no `DRYRUN_API_KEY`. -/
def envNoApiKey : EnvMap :=
  [("DRYRUN_POSTGRES_URL", "postgresql://db:5432/dryrun"),
   ("DRYRUN_RABBITMQ_URL", "amqp://mq:5672")]

/-- The transmitter configuration with default limits. -/
def c3Cfg : BatchConfig :=
  { batch_size := 100, destination_url := "https://api.example.com/v1" }

/-- A gzip-size oracle reporting 11 MiB for every payload (over the 10 MiB
hard limit). -/
def oversizeGzip : Payload → Nat := fun _ => 11534336

/-- The starting transmitter state for the S4-style run. -/
def c3State : BatchState :=
  { queue := ["itemA", "itemB"], dbOps := [], logs := [],
    batchesSent := 0, batchesFailed := 0 }

/-- The API-client configuration with all defaults (failure threshold 5,
3 retry attempts). -/
def c4Cfg : ClientConfig := {}

/-- An HTTP oracle: every attempt observes a 500 response. -/
def allServerErrors : Nat → AttemptResult := fun _ => .resp 500 "boom"

/-- A service event carrying only `ip`, `port` and `service` — the shape
the network scanner emits for a plain discovered service. -/
def c6Service : CorrData :=
  { port := some 80, service := some "http", ip := some "10.0.0.5" }

/-- The S1 event: a flagged PostgreSQL candidate at 0.5 with a confirming
banner. -/
def s1Event : ServiceEvent :=
  { port := some 5432, banner := some "PostgreSQL 14.2",
    metadata := { database_candidate := some true,
                  candidate_type := some "postgresql",
                  candidate_confidence := some (1 / 2) } }

/-- The S2 event: as S1 but with a non-matching banner. -/
def s2Event : ServiceEvent :=
  { port := some 5432, banner := some "Apache/2.4",
    metadata := { database_candidate := some true,
                  candidate_type := some "postgresql",
                  candidate_confidence := some (1 / 2) } }

/-- The IPs assigned to the generated services, in order. -/
def serviceIps (svcs : List (String × ComposeService)) : List String :=
  svcs.map (fun p => p.2.ipv4_address)

/-- The invariant the generation loops maintain: service keys are unique,
assigned IPs are pairwise distinct, lie in the pool `172.28.0.10` –
`172.28.0.250` (never the gateway), and are all recorded in `used_ips`
(which also holds the gateway from the start). -/
def GenInv (st : GenState) : Prop :=
  (st.services.map (fun p => p.1)).Nodup ∧
  (serviceIps st.services).Nodup ∧
  (∀ ip ∈ serviceIps st.services, ip ∈ st.usedIps) ∧
  "172.28.0.1" ∈ st.usedIps ∧
  (∀ ip ∈ serviceIps st.services,
    ip ≠ "172.28.0.1" ∧ ∃ k, 10 ≤ k ∧ k ≤ 250 ∧ ip = "172.28.0." ++ toString k)

/-! # Theorems -/

theorem strContains_spec (hay needle : String) :
    strContains hay needle = true ↔ needle.toList <:+: hay.toList := by
  unfold strContains
  generalize needle.toList = n
  generalize hay.toList = h
  induction h with
  | nil =>
    simp [containsSub, List.isEmpty_iff, List.infix_nil]
  | cons c t ih =>
    simp only [containsSub, Bool.or_eq_true, ih]
    constructor
    · rintro (hpre | hinf)
      · exact (List.isPrefixOf_iff_prefix.mp hpre).isInfix
      · exact List.infix_cons hinf
    · intro hinf
      rcases hinf with ⟨s, t', heq⟩
      match s, heq with
      | [], heq => exact Or.inl (List.isPrefixOf_iff_prefix.mpr ⟨t', heq⟩)
      | x :: s', heq =>
        right
        have h2 : s' ++ n ++ t' = t := by
          simpa using congrArg List.tail heq
        exact ⟨s', t', h2⟩

theorem clearField_snd (v : Option String) :
    (ProbeCredentials.clearField v).2 =
      if v = some "" then some "" else none := by
  rcases v with _ | s
  · rfl
  · by_cases h : s = ""
    · subst h; rfl
    · simp [ProbeCredentials.clearField, h]

theorem clear_eq (c : ProbeCredentials) :
    c.clear =
      { username := c.username,
        password := if c.password = some "" then some "" else none,
        private_key := if c.private_key = some "" then some "" else none,
        passphrase := if c.passphrase = some "" then some "" else none } := by
  simp [ProbeCredentials.clear, clearField_snd]

/-- **C1.** In the S6 scenario (five enumerated repositories, the third
raising during analysis) the handler sends exactly one completion
callback, whose `discovery_count` equals the 14 events published for the
four surviving targets and whose `error_message` is
`1/5 repos failed analysis` — but whose `status` is `"completed"`, not
`"partial"`: the middle branch of discover.py lines 160–169 assigns
`status = "completed"` whenever at least one repo succeeded. -/
theorem C1_s6_completion_status :
    (discoverRepositories s6Targets).completions =
      [{ status := "completed", discovery_count := 14,
         error_message := some "1/5 repos failed analysis" }] ∧
    (discoverRepositories s6Targets).completions.length = 1 ∧
    (discoverRepositories s6Targets).publishedEvents = 14 ∧
    ((discoverRepositories s6Targets).completions.map (·.status)) ≠
      ["partial"] := by
  refine ⟨by decide, by decide, by decide, by decide⟩

/-- **C2** (counterexample).  The claim "str(c) … never contains the
literal password" is false as a universal statement: for the credentials
object with password `"***"`, the fixed redacted form
`ProbeCredentials(username=root, password=***, key=***)` contains the
literal password. -/
theorem C2_counterexample :
    ¬ (∀ (c : ProbeCredentials) (p : String), c.password = some p →
        strContains c.strStr p = false) := by
  intro h
  have hc := h { username := "root", password := some "***" } "***" rfl
  revert hc
  decide

/-- **C2** (amended).  `str(c)` and `repr(c)` are the fixed redacted form
determined by the username alone; a secret that is not a substring of that
username-derived template never occurs in the output; and on every exit
path of `SSHProbe.probe` — success, connect failure, command failure or
missing SSH library — `clear()` has run before the result is returned,
leaving every present nonempty secret among `password`, `private_key` and
`passphrase` overwritten and set to `None` (a present-but-empty secret
fails the source's `if self.password:` truthiness check and survives as
the empty string; an absent secret stays `None`). -/
theorem C2_redaction_and_scrub (c : ProbeCredentials) (p : String)
    (hsec : c.password = some p ∨ c.private_key = some p ∨
      c.passphrase = some p)
    (hfree : strContains (credTemplate c.username) p = false) :
    c.strStr = credTemplate c.username ∧
    c.reprStr = credTemplate c.username ∧
    strContains c.strStr p = false ∧
    ∀ probeId targetIp serverId phase,
      (SSHProbe.probe probeId targetIp c serverId phase).credsAfter =
        { username := c.username,
          password := if c.password = some "" then some "" else none,
          private_key := if c.private_key = some "" then some "" else none,
          passphrase :=
            if c.passphrase = some "" then some "" else none } := by
  refine ⟨rfl, rfl, ?_, ?_⟩
  · simpa [ProbeCredentials.strStr, ProbeCredentials.reprStr,
      credTemplate] using hfree
  · intro probeId targetIp serverId phase
    cases phase <;> simp [SSHProbe.probe, clear_eq]

/-- **C2** (witness): the amended theorem applied to a concrete
credentials object whose password is not part of the redacted template. -/
theorem C2_redaction_and_scrub_witness :
    ({ username := "alice", password := some "hunter2hunter2" } :
        ProbeCredentials).strStr = credTemplate "alice" ∧
    strContains
      ({ username := "alice", password := some "hunter2hunter2" } :
        ProbeCredentials).strStr "hunter2hunter2" = false ∧
    (SSHProbe.probe "p1" "10.0.0.9"
      { username := "alice", password := some "hunter2hunter2" }
      none .importError).credsAfter =
      { username := "alice", password := none, private_key := none,
        passphrase := none } := by
  have h := C2_redaction_and_scrub
    { username := "alice", password := some "hunter2hunter2" }
    "hunter2hunter2" (Or.inl rfl) (by decide)
  refine ⟨h.1, h.2.2.1, ?_⟩
  rw [h.2.2.2 "p1" "10.0.0.9" none .importError]
  decide

/-- **C10.**  `SSHProbe.probe` is total at its interface: for every target,
credentials and outcome it returns a `ProbeResult` carrying its inputs;
a missing SSH library yields `success=False` with error
`paramiko not installed`; a connect failure yields `success=False` with
error `Connection failed: <ExceptionTypeName>` — a function of the
exception's type name only, never of its message body; and on a successful
connect each result field is the value of its own collection helper, so a
failing individual probe command (the `hostname` command raising or
exiting nonzero) leaves only that field empty while the probe still
returns a result. -/
theorem C10_probe_totality (probeId targetIp : String)
    (c : ProbeCredentials) (serverId : Option String)
    (phase : ConnectPhase) :
    ((SSHProbe.probe probeId targetIp c serverId phase).result.probe_id =
        probeId ∧
     (SSHProbe.probe probeId targetIp c serverId phase).result.target_ip =
        targetIp ∧
     (SSHProbe.probe probeId targetIp c serverId phase).result.server_id =
        serverId) ∧
    (phase = .importError →
      (SSHProbe.probe probeId targetIp c serverId phase).result.success =
        false ∧
      (SSHProbe.probe probeId targetIp c serverId phase).result.error =
        some "paramiko not installed") ∧
    (∀ e, phase = .connectRaise e →
      (SSHProbe.probe probeId targetIp c serverId phase).result.success =
        false ∧
      (SSHProbe.probe probeId targetIp c serverId phase).result.error =
        some ("Connection failed: " ++ e.tyName) ∧
      ∀ m, SSHProbe.probe probeId targetIp c serverId
          (.connectRaise { tyName := e.tyName, message := m }) =
        SSHProbe.probe probeId targetIp c serverId phase) ∧
    (∀ cmds, phase = .connected cmds none →
      (SSHProbe.probe probeId targetIp c serverId phase).result.success =
        true ∧
      (SSHProbe.probe probeId targetIp c serverId phase).result.error =
        none ∧
      (SSHProbe.probe probeId targetIp c serverId phase).result.hostname =
        getHostname cmds.hostnameCmd ∧
      (cmds.hostnameCmd = .raise →
        (SSHProbe.probe probeId targetIp c serverId phase).result.hostname =
          none) ∧
      (SSHProbe.probe probeId targetIp c serverId
          phase).result.operating_system = runHelper [] cmds.osInfo ∧
      (SSHProbe.probe probeId targetIp c serverId phase).result.hardware =
        runHelper [] cmds.hardware ∧
      (SSHProbe.probe probeId targetIp c serverId
          phase).result.installed_software = runHelper [] cmds.software ∧
      (SSHProbe.probe probeId targetIp c serverId
          phase).result.running_services = runHelper [] cmds.services ∧
      (SSHProbe.probe probeId targetIp c serverId
          phase).result.network_config = runHelper [] cmds.network) := by
  refine ⟨?_, ?_, ?_, ?_⟩
  · rcases phase with _ | e | ⟨cmds, _ | e⟩ <;> simp [SSHProbe.probe]
  · rintro rfl
    simp [SSHProbe.probe]
  · rintro e rfl
    refine ⟨by simp [SSHProbe.probe], by simp [SSHProbe.probe], ?_⟩
    intro m
    simp [SSHProbe.probe]
  · rintro cmds rfl
    refine ⟨by simp [SSHProbe.probe], by simp [SSHProbe.probe],
      by simp [SSHProbe.probe], ?_, by simp [SSHProbe.probe],
      by simp [SSHProbe.probe], by simp [SSHProbe.probe],
      by simp [SSHProbe.probe], by simp [SSHProbe.probe]⟩
    intro hr
    simp [SSHProbe.probe, hr, getHostname]

/-- **C10** (witness): the theorem applied at a concrete connect failure
whose exception message would contain a credential fragment. -/
theorem C10_probe_totality_witness :
    (SSHProbe.probe "p1" "10.0.0.9" { username := "alice" } none
      (.connectRaise { tyName := "AuthenticationException",
                       message := "password hunter2 rejected" })).result.error
      = some "Connection failed: AuthenticationException" ∧
    SSHProbe.probe "p1" "10.0.0.9" { username := "alice" } none
      (.connectRaise { tyName := "AuthenticationException",
                       message := "another message" }) =
    SSHProbe.probe "p1" "10.0.0.9" { username := "alice" } none
      (.connectRaise { tyName := "AuthenticationException",
                       message := "password hunter2 rejected" }) := by
  have h := C10_probe_totality "p1" "10.0.0.9" { username := "alice" } none
    (.connectRaise { tyName := "AuthenticationException",
                     message := "password hunter2 rejected" })
  have h2 := h.2.2.1 { tyName := "AuthenticationException",
                       message := "password hunter2 rejected" } rfl
  exact ⟨h2.2.1, h2.2.2 "another message"⟩

/-- **C9** (counterexample).  A process started with both URLs but without
`DRYRUN_API_KEY` comes up: `api_key` has a `default_factory` that
auto-generates a token, so startup succeeds — refuting the claim that its
absence aborts the process. -/
theorem C9_counterexample :
    dryrunStartup envNoApiKey "generated-token" =
      .ok { postgres_url := "postgresql://db:5432/dryrun"
            rabbitmq_url := "amqp://mq:5672"
            redis_url := "redis://redis:6379"
            api_key := "generated-token"
            log_level := "info"
            sample_repos_path := "/repos"
            sample_repos_host_path := ""
            docker_network := "discovery-network"
            code_analyzer_url := "http://code-analyzer:8002"
            network_scanner_url := "http://network-scanner:8001"
            db_inspector_url := "http://db-inspector:8003"
            approval_api_url := "http://approval-api:3001" } := by
  rfl

/-- **C9** (amended).  Absence of `DRYRUN_POSTGRES_URL` or
`DRYRUN_RABBITMQ_URL` aborts startup with the `Configuration error`
diagnostic; `DRYRUN_API_KEY` is optional — with both URLs present the
process comes up, and the key is taken from the environment or
auto-generated when absent. -/
theorem C9_required_settings (env : EnvMap) (genKey : String) :
    ((envLookup env "DRYRUN_POSTGRES_URL" = none ∨
      envLookup env "DRYRUN_RABBITMQ_URL" = none) →
      ∃ e, dryrunStartup env genKey =
        .error ("Configuration error: " ++ e ++ dryrunDiagSuffix)) ∧
    (∀ pg mq, envLookup env "DRYRUN_POSTGRES_URL" = some pg →
      envLookup env "DRYRUN_RABBITMQ_URL" = some mq →
      ∃ s, dryrunStartup env genKey = .ok s ∧ s.postgres_url = pg ∧
        s.rabbitmq_url = mq ∧
        s.api_key = (envLookup env "DRYRUN_API_KEY").getD genKey) := by
  constructor
  · intro hmiss
    rcases hpg : envLookup env "DRYRUN_POSTGRES_URL" with _ | pg <;>
      rcases hmq : envLookup env "DRYRUN_RABBITMQ_URL" with _ | mq
    · exact ⟨"postgres_url: Field required\nrabbitmq_url: Field required\n",
        by simp [dryrunStartup, settingsInit, hpg, hmq]⟩
    · exact ⟨"postgres_url: Field required\n",
        by simp [dryrunStartup, settingsInit, hpg, hmq]⟩
    · exact ⟨"rabbitmq_url: Field required\n",
        by simp [dryrunStartup, settingsInit, hpg, hmq]⟩
    · simp [hpg, hmq] at hmiss
  · intro pg mq hpg hmq
    simp [dryrunStartup, settingsInit, hpg, hmq]

/-- **C9** (witness): the amended theorem at two concrete environments —
one missing `DRYRUN_POSTGRES_URL` (startup aborts) and one missing only
`DRYRUN_API_KEY` (startup succeeds with the generated key). -/
theorem C9_required_settings_witness :
    (∃ e, dryrunStartup [("DRYRUN_RABBITMQ_URL", "amqp://mq:5672")] "k" =
      .error ("Configuration error: " ++ e ++ dryrunDiagSuffix)) ∧
    (∃ s, dryrunStartup envNoApiKey "k" = .ok s ∧
      s.postgres_url = "postgresql://db:5432/dryrun" ∧
      s.rabbitmq_url = "amqp://mq:5672" ∧
      s.api_key = (envLookup envNoApiKey "DRYRUN_API_KEY").getD "k") := by
  constructor
  · exact (C9_required_settings
      [("DRYRUN_RABBITMQ_URL", "amqp://mq:5672")] "k").1 (Or.inl (by decide))
  · exact (C9_required_settings envNoApiKey "k").2
      "postgresql://db:5432/dryrun" "amqp://mq:5672" (by decide) (by decide)

/-- **C3** (counterexample).  On an oversized batch (gzip 11 MiB > the
10 MiB default limit) the processor restores the queue and logs the
`Batch rejected` error, but performs **no** ledger operation at all: no
`batches` row with `status=failed` is recorded, refuting that part of the
claim (`create_batch` is only reached after the size check passes). -/
theorem C3_counterexample :
    (processBatch c3Cfg oversizeGzip (fun _ => "") (fun _ => 0)
      (.returned 200 none) 1 c3State).queue = c3State.queue ∧
    (processBatch c3Cfg oversizeGzip (fun _ => "") (fun _ => 0)
      (.returned 200 none) 1 c3State).logs =
      [.batchTooLarge 11 10, .batchRejected 10] ∧
    (processBatch c3Cfg oversizeGzip (fun _ => "") (fun _ => 0)
      (.returned 200 none) 1 c3State).dbOps = [] := by
  have hsz : ((oversizeGzip (transformBatch c3Cfg (fun _ => "")
      (c3State.queue.take c3Cfg.batch_size)) : Nat) : Rat) /
        (1024 * 1024) = 11 := by
    norm_num [oversizeGzip]
  have hcheck : checkBatchSize c3Cfg oversizeGzip
      (transformBatch c3Cfg (fun _ => "")
        (c3State.queue.take c3Cfg.batch_size)) =
      ((false, 11), [.batchTooLarge 11 10]) := by
    simp only [checkBatchSize, hsz]
    norm_num [c3Cfg]
  refine ⟨?_, ?_, ?_⟩ <;>
    simp only [processBatch, hcheck] <;>
    simp [c3State, c3Cfg]

/-- **C3** (amended).  When a flush finds the gzip-compressed payload of
the dequeued items above the hard limit, it does not transmit: the items
are restored at the head of the FIFO in their original order (the queue is
exactly as before the flush), an error log `Batch too large` followed by
`Batch rejected` is emitted, and nothing else changes — in particular no
batch ledger row is recorded for the rejected batch. -/
theorem C3_oversize_requeue (cfg : BatchConfig) (gzipSize : Payload → Nat)
    (neoMap : List BatchItem → String) (payloadSizeOf : List BatchItem → Nat)
    (send : SendOutcome) (batchId : Nat) (st : BatchState)
    (hitems : st.queue.take cfg.batch_size ≠ [])
    (hsize : ((gzipSize (transformBatch cfg neoMap
        (st.queue.take cfg.batch_size)) : Rat) / (1024 * 1024)) >
      cfg.max_batch_size_mb) :
    processBatch cfg gzipSize neoMap payloadSizeOf send batchId st =
      { st with logs := st.logs ++
          [.batchTooLarge ((gzipSize (transformBatch cfg neoMap
              (st.queue.take cfg.batch_size)) : Rat) / (1024 * 1024))
            cfg.max_batch_size_mb,
           .batchRejected cfg.max_batch_size_mb] } := by
  have hqne : st.queue ≠ [] := by
    intro h
    exact hitems (by simp [h])
  have hq : st.queue.isEmpty = false := by
    cases hq : st.queue with
    | nil => exact absurd hq hqne
    | cons a l => rfl
  have hie : (st.queue.take cfg.batch_size).isEmpty = false := by
    cases hi : st.queue.take cfg.batch_size with
    | nil => exact absurd hi hitems
    | cons a l => rfl
  have hcheck : checkBatchSize cfg gzipSize
      (transformBatch cfg neoMap (st.queue.take cfg.batch_size)) =
      ((false, (gzipSize (transformBatch cfg neoMap
          (st.queue.take cfg.batch_size)) : Rat) / (1024 * 1024)),
       [.batchTooLarge ((gzipSize (transformBatch cfg neoMap
           (st.queue.take cfg.batch_size)) : Rat) / (1024 * 1024))
         cfg.max_batch_size_mb]) := by
    simp [checkBatchSize, hsize]
  simp only [processBatch, hq, Bool.false_eq_true, if_false, hie, hcheck,
    Bool.not_false, if_true]
  cases st with
  | mk q ops logs sent failed =>
    simp [List.take_append_drop]

/-- **C3** (witness): the amended theorem at the concrete oversized run
(two queued items, an 11 MiB gzip oracle). -/
theorem C3_oversize_requeue_witness :
    processBatch c3Cfg oversizeGzip (fun _ => "") (fun _ => 0)
      (.returned 200 none) 1 c3State =
    { c3State with logs :=
        [ .batchTooLarge ((oversizeGzip (transformBatch c3Cfg (fun _ => "")
            (c3State.queue.take c3Cfg.batch_size)) : Rat) / (1024 * 1024))
          c3Cfg.max_batch_size_mb,
          .batchRejected c3Cfg.max_batch_size_mb ] } := by
  have h := C3_oversize_requeue c3Cfg oversizeGzip (fun _ => "")
    (fun _ => 0) (.returned 200 none) 1 c3State (by decide)
    (by norm_num [oversizeGzip, c3Cfg])
  simpa [c3State] using h

/-- **C4.**  The circuit breaker built in `APIClient.__init__` is never
applied to any call: after five consecutive transient failures (each
`send_batch` exhausting its three retries against 500 responses) the
breaker is still closed, and the next `send_batch` call still issues three
HTTP requests and raises a transient error instead of returning
immediately without a request — refuting the claimed breaker behaviour
(`_send_with_circuit_breaker` merely logs and re-raises; the
`self._circuit_breaker` object decorates nothing). -/
theorem C4_breaker_never_engages :
    (runSendCalls c4Cfg (List.replicate 5 allServerErrors)
      (mkAPIClient c4Cfg)).2 =
      List.replicate 5
        (SendResult.raisedTransmission (some 500) "Server error: 500", 3) ∧
    isCircuitOpen
      (runSendCalls c4Cfg (List.replicate 5 allServerErrors)
        (mkAPIClient c4Cfg)).1 = false ∧
    (sendBatch c4Cfg allServerErrors
      (runSendCalls c4Cfg (List.replicate 5 allServerErrors)
        (mkAPIClient c4Cfg)).1).2.2 = 3 ∧
    (sendBatch c4Cfg allServerErrors
      (runSendCalls c4Cfg (List.replicate 5 allServerErrors)
        (mkAPIClient c4Cfg)).1).1 =
      .raisedTransmission (some 500) "Server error: 500" := by
  refine ⟨by decide, by decide, by decide, by decide⟩

/-- **C5.**  Stage-3 redaction does not remove the matched username or the
matched API-key secret: the replacement template `r"\1" + placeholder`
keeps capture group 1 — which is the username (the path prefix is a
non-capturing group) respectively the secret itself — so `/home/alice`
becomes `alice[REDACTED_USER]` (the username survives, the path prefix is
destroyed) and `api_key: abcdefghijklmnopqrstuv` becomes
`abcdefghijklmnopqrstuv[REDACTED_SECRET]` (the secret survives), refuting
the claim that the matches are replaced entirely and no longer occur. -/
theorem C5_redaction_leaks :
    redactString {} "/home/alice" = "alice[REDACTED_USER]" ∧
    strContains (redactString {} "/home/alice") "alice" = true ∧
    redactString {} "api_key: abcdefghijklmnopqrstuv" =
      "abcdefghijklmnopqrstuv[REDACTED_SECRET]" ∧
    strContains (redactString {} "api_key: abcdefghijklmnopqrstuv")
      "abcdefghijklmnopqrstuv" = true := by
  refine ⟨by rfl, by decide, by rfl, by decide⟩

/-- **C6.**  The correlation stage is not idempotent (contradicting both
the claim and the module's own docstring): processing a plain service
event against an empty store yields no relationships, but because
`process` also stores the entity, re-running it on its own output finds
the entity's own IP in the store and emits a `deployed_on` relationship —
so `process(process(e)) ≠ process(e)`. -/
theorem C6_correlation_not_idempotent :
    (corrProcess c6Service []).1.correlated_relationships = some [] ∧
    (((corrProcess (corrProcess c6Service []).1
        (corrProcess c6Service []).2).1.correlated_relationships).getD
      []).length = 1 ∧
    (corrProcess (corrProcess c6Service []).1
        (corrProcess c6Service []).2).1 ≠ (corrProcess c6Service []).1 := by
  refine ⟨by decide, by decide, ?_⟩
  intro h
  have ha : (((corrProcess c6Service
      []).1.correlated_relationships).getD []).length = 0 := by decide
  have hb : (((corrProcess (corrProcess c6Service []).1
      (corrProcess c6Service []).2).1.correlated_relationships).getD
    []).length = 1 := by decide
  rw [h, ha] at hb
  exact absurd hb (by decide)

theorem bannerMatches_empty_banner (t : String) :
    bannerMatches t "" = false := by
  simp [bannerMatches]

theorem bannerMatches_empty_type (b : String) :
    bannerMatches "" b = false := by
  by_cases hb : b = ""
  · simp [bannerMatches, hb]
  · have hpat : bannerPatterns (pyLower "") = [] := rfl
    simp [bannerMatches, hb, hpat]

/-- **C7.**  For every discovered-service event already flagged
`database_candidate=true` with `candidate_confidence` below 0.85, stage 1
raises the confidence to 0.85 and sets
`validation_method="port_and_banner"` exactly when the banner matches the
candidate type's banner patterns (case-insensitively); when the match
fails the confidence is left unchanged, and when a banner and candidate
type are both present but do not match, `banner_mismatch=true` and
`validation_method="port_only"` are set. -/
theorem C7_candidate_validation (e : ServiceEvent)
    (hflag : e.metadata.database_candidate = some true)
    (hconf : e.metadata.candidate_confidence.getD confidencePortOnly <
      confidencePortAndBanner) :
    (((processCandidate e).metadata.candidate_confidence =
        some confidencePortAndBanner ∧
      (processCandidate e).metadata.validation_method =
        some "port_and_banner") ↔
      bannerMatches (e.metadata.candidate_type.getD "")
        (e.banner.getD "") = true) ∧
    (bannerMatches (e.metadata.candidate_type.getD "")
        (e.banner.getD "") = false →
      (processCandidate e).metadata.candidate_confidence =
        e.metadata.candidate_confidence) ∧
    (e.banner.getD "" ≠ "" →
      e.metadata.candidate_type.getD "" ≠ "" →
      bannerMatches (e.metadata.candidate_type.getD "")
        (e.banner.getD "") = false →
      (processCandidate e).metadata.banner_mismatch = some true ∧
      (processCandidate e).metadata.validation_method = some "port_only" ∧
      (processCandidate e).metadata.candidate_confidence =
        e.metadata.candidate_confidence) := by
  have hproc : processCandidate e = validateCandidate e := by
    simp [processCandidate, hflag]
  have hnotge : ¬(e.metadata.candidate_confidence.getD confidencePortOnly ≥
      confidencePortAndBanner) := not_le.mpr hconf
  have hne : e.metadata.candidate_confidence ≠
      some confidencePortAndBanner := by
    intro hEq
    rw [hEq] at hconf
    exact lt_irrefl _ hconf
  rw [hproc]
  by_cases hcond : e.banner.getD "" ≠ "" ∧
      e.metadata.candidate_type.getD "" ≠ ""
  · cases hbm : bannerMatches (e.metadata.candidate_type.getD "")
        (e.banner.getD "") with
    | true =>
        refine ⟨?_, ?_, ?_⟩
        · simp [validateCandidate, hnotge, hcond, hbm]
        · intro hfalse
          cases hfalse
        · intro _ _ hfalse
          cases hfalse
    | false =>
        refine ⟨?_, ?_, ?_⟩
        · simp only [validateCandidate, if_neg hnotge, if_pos hcond, hbm,
            Bool.false_eq_true, if_false]
          simp [hne]
        · intro _
          simp [validateCandidate, hnotge, hcond, hbm]
        · intro _ _ _
          simp [validateCandidate, hnotge, hcond, hbm]
  · have hbmf : bannerMatches (e.metadata.candidate_type.getD "")
        (e.banner.getD "") = false := by
      rcases not_and_or.mp hcond with hb | ht
      · rw [not_ne_iff.mp hb]
        exact bannerMatches_empty_banner _
      · rw [not_ne_iff.mp ht]
        exact bannerMatches_empty_type _
    refine ⟨?_, ?_, ?_⟩
    · simp only [validateCandidate, if_neg hnotge, if_neg hcond, hbmf,
        Bool.false_eq_true]
      simp [hne]
    · intro _
      simp [validateCandidate, hnotge, hcond]
    · intro hb ht _
      exact absurd ⟨hb, ht⟩ hcond

/-- **C7** (witness): the theorem applied at the S1 event (banner match →
promotion to 0.85 / `port_and_banner`) and the S2 event (banner mismatch →
confidence still 0.5, `banner_mismatch=true`, `port_only`). -/
theorem C7_candidate_validation_witness :
    (processCandidate s1Event).metadata.candidate_confidence =
      some confidencePortAndBanner ∧
    (processCandidate s1Event).metadata.validation_method =
      some "port_and_banner" ∧
    (processCandidate s2Event).metadata.banner_mismatch = some true ∧
    (processCandidate s2Event).metadata.validation_method =
      some "port_only" ∧
    (processCandidate s2Event).metadata.candidate_confidence =
      some (1 / 2) := by
  have h1 := C7_candidate_validation s1Event rfl
    (by norm_num [s1Event, confidencePortOnly, confidencePortAndBanner])
  have h2 := C7_candidate_validation s2Event rfl
    (by norm_num [s2Event, confidencePortOnly, confidencePortAndBanner])
  have hbm1 : bannerMatches (s1Event.metadata.candidate_type.getD "")
      (s1Event.banner.getD "") = true := by decide
  have hbm2 : bannerMatches (s2Event.metadata.candidate_type.getD "")
      (s2Event.banner.getD "") = false := by decide
  obtain ⟨hc1, hv1⟩ := h1.1.mpr hbm1
  obtain ⟨hm2, hv2, hc2⟩ := h2.2.2 (by decide) (by decide) hbm2
  exact ⟨hc1, hv1, hm2, hv2, hc2⟩

theorem randint_bounds (lo hi : Nat) (g : Rng) (hle : lo ≤ hi) :
    lo ≤ (randint lo hi g).1 ∧ (randint lo hi g).1 ≤ hi := by
  unfold randint Rng.next
  refine ⟨by simp, ?_⟩
  have h : g.stream g.pos % (hi - lo + 1) ≤ hi - lo :=
    Nat.le_of_lt_succ (Nat.mod_lt _ (Nat.succ_pos _))
  simp only
  omega

theorem randomIpAux_spec (f : Nat) (used : List String) (g : Rng)
    (ip : String) (used' : List String) (g' : Rng)
    (h : randomIpAux used g f = some (ip, used', g')) :
    ip ∉ used ∧ used' = used ++ [ip] ∧
    ∃ k, 10 ≤ k ∧ k ≤ 250 ∧ ip = "172.28.0." ++ toString k := by
  induction f generalizing g with
  | zero => simp [randomIpAux] at h
  | succ n ih =>
      rw [randomIpAux] at h
      simp only [randint, Rng.next] at h
      by_cases hc :
          used.contains ("172.28.0." ++ toString (10 + g.stream g.pos % 241))
      · rw [if_pos hc] at h
        exact ih _ h
      · rw [if_neg hc] at h
        simp only [Option.some.injEq, Prod.mk.injEq] at h
        obtain ⟨hip, hused, -⟩ := h
        subst hip
        subst hused
        refine ⟨?_, rfl, 10 + g.stream g.pos % 241, by omega, by omega, rfl⟩
        intro hmem
        exact hc (by simpa using hmem)

theorem mem_ips_pydictSet {d : List (String × ComposeService)} {k : String}
    {v : ComposeService} {x : String}
    (hx : x ∈ serviceIps (pydictSet d k v)) :
    x = v.ipv4_address ∨ x ∈ serviceIps d := by
  unfold pydictSet at hx
  by_cases hany : d.any (fun p => p.1 == k)
  · rw [if_pos hany] at hx
    simp only [serviceIps, List.map_map, List.mem_map,
      Function.comp_apply] at hx
    obtain ⟨q, hq, hqe⟩ := hx
    by_cases hqk : (q.1 == k) = true
    · rw [if_pos hqk] at hqe
      exact Or.inl hqe.symm
    · rw [if_neg hqk] at hqe
      exact Or.inr (by
        simp only [serviceIps, List.mem_map]
        exact ⟨q, hq, hqe⟩)
  · rw [if_neg hany] at hx
    simp only [serviceIps, List.map_append, List.mem_append,
      List.map_cons, List.map_nil, List.mem_singleton] at hx
    rcases hx with hx | hx
    · exact Or.inr (by simpa [serviceIps] using hx)
    · exact Or.inl hx

theorem serviceIps_cons (p : String × ComposeService)
    (t : List (String × ComposeService)) :
    serviceIps (p :: t) = p.2.ipv4_address :: serviceIps t := rfl

theorem keys_pydictSet_nodup {d : List (String × ComposeService)}
    {k : String} {v : ComposeService}
    (hkeys : (d.map (fun p => p.1)).Nodup) :
    ((pydictSet d k v).map (fun p => p.1)).Nodup := by
  unfold pydictSet
  by_cases hany : d.any (fun p => p.1 == k)
  · rw [if_pos hany]
    have hmapeq : (d.map (fun p => if p.1 == k then (k, v) else p)).map
        (fun p => p.1) = d.map (fun p => p.1) := by
      rw [List.map_map]
      apply List.map_congr_left
      intro p _
      simp only [Function.comp_apply]
      by_cases hpk : (p.1 == k) = true
      · rw [if_pos hpk]
        exact (eq_of_beq hpk).symm
      · rw [if_neg hpk]
    rw [hmapeq]
    exact hkeys
  · rw [if_neg hany]
    rw [List.map_append]
    simp only [List.map_cons, List.map_nil]
    rw [List.nodup_append]
    refine ⟨hkeys, List.nodup_singleton k, ?_⟩
    intro a ha hb
    simp only [List.mem_singleton] at hb
    subst hb
    simp only [List.mem_map] at ha
    obtain ⟨p, hp, hpa⟩ := ha
    rw [List.any_eq_true] at hany
    exact hany ⟨p, hp, by simp [hpa]⟩

theorem ips_update_nodup {k : String} {v : ComposeService} :
    ∀ (d : List (String × ComposeService)),
    (d.map (fun p => p.1)).Nodup →
    (serviceIps d).Nodup →
    v.ipv4_address ∉ serviceIps d →
    (serviceIps (d.map (fun p => if p.1 == k then (k, v) else p))).Nodup
  | [], _, _, _ => by simp [serviceIps]
  | p :: t, hkeys, hnd, hfresh => by
      have hfresh' : v.ipv4_address ∉ serviceIps t := by
        rw [serviceIps_cons] at hfresh
        exact fun hm => hfresh (List.mem_cons_of_mem _ hm)
      rw [serviceIps_cons] at hfresh hnd
      rw [List.map_cons] at hkeys
      have hndt := (List.nodup_cons.mp hnd).2
      have hndh := (List.nodup_cons.mp hnd).1
      have hkt := (List.nodup_cons.mp hkeys).2
      have hkh := (List.nodup_cons.mp hkeys).1
      rw [List.map_cons]
      by_cases hpk : (p.1 == k) = true
      · rw [if_pos hpk]
        have htail : t.map (fun q => if q.1 == k then (k, v) else q) = t := by
          conv_rhs => rw [← List.map_id t]
          apply List.map_congr_left
          intro q hq
          have hqk : (q.1 == k) = false := by
            cases hqe : q.1 == k with
            | false => rfl
            | true =>
                exfalso
                apply hkh
                rw [List.mem_map]
                exact ⟨q, hq, by rw [eq_of_beq hqe, eq_of_beq hpk]⟩
          rw [hqk]
          simp
        rw [serviceIps_cons, htail]
        exact List.nodup_cons.mpr ⟨hfresh', hndt⟩
      · rw [if_neg hpk]
        rw [serviceIps_cons]
        refine List.nodup_cons.mpr ⟨?_, ?_⟩
        · intro hmem
          unfold serviceIps at hmem
          rw [List.map_map, List.mem_map] at hmem
          obtain ⟨q, hq, hqe⟩ := hmem
          simp only [Function.comp_apply] at hqe
          by_cases hqk : (q.1 == k) = true
          · rw [if_pos hqk] at hqe
            apply hfresh
            have hv : v.ipv4_address = p.2.ipv4_address := hqe
            rw [hv]
            exact List.mem_cons_self _ _
          · rw [if_neg hqk] at hqe
            apply hndh
            unfold serviceIps
            rw [List.mem_map]
            exact ⟨q, hq, hqe⟩
        · exact ips_update_nodup t hkt hndt hfresh'

theorem ips_pydictSet_nodup {d : List (String × ComposeService)}
    {k : String} {v : ComposeService}
    (hkeys : (d.map (fun p => p.1)).Nodup)
    (hnd : (serviceIps d).Nodup)
    (hfresh : v.ipv4_address ∉ serviceIps d) :
    (serviceIps (pydictSet d k v)).Nodup := by
  unfold pydictSet
  by_cases hany : d.any (fun p => p.1 == k)
  · rw [if_pos hany]
    exact ips_update_nodup d hkeys hnd hfresh
  · rw [if_neg hany]
    unfold serviceIps
    rw [List.map_append]
    simp only [List.map_cons, List.map_nil]
    rw [List.nodup_append]
    refine ⟨hnd, List.nodup_singleton _, ?_⟩
    intro a ha hb
    simp only [List.mem_singleton] at hb
    subst hb
    exact hfresh ha

theorem genInvStep (st : GenState) (name : String) (svc : ComposeService)
    (usedPorts' : List Nat) (portOffset' : Nat) (g' : Rng)
    (hInv : GenInv st)
    (hip : svc.ipv4_address ∉ st.usedIps)
    (hrange : ∃ k, 10 ≤ k ∧ k ≤ 250 ∧
      svc.ipv4_address = "172.28.0." ++ toString k) :
    GenInv { usedIps := st.usedIps ++ [svc.ipv4_address],
             usedPorts := usedPorts', portOffset := portOffset',
             services := pydictSet st.services name svc, rng := g' } := by
  obtain ⟨hkeys, hnd, hmem, hgw, hrng⟩ := hInv
  have hfresh : svc.ipv4_address ∉ serviceIps st.services :=
    fun hm => hip (hmem _ hm)
  refine ⟨keys_pydictSet_nodup hkeys, ips_pydictSet_nodup hkeys hnd hfresh,
    ?_, ?_, ?_⟩
  · intro ip hm
    rcases mem_ips_pydictSet hm with he | hold
    · subst he
      simp
    · exact List.mem_append_left _ (hmem _ hold)
  · exact List.mem_append_left _ hgw
  · intro ip hm
    rcases mem_ips_pydictSet hm with he | hold
    · subst he
      refine ⟨fun hEq => hip (hEq ▸ hgw), hrange⟩
    · exact hrng _ hold

theorem genWebLoop_inv : ∀ (specs : List ServiceSpec) (i : Nat)
    (st st' : GenState), GenInv st → genWebLoop specs i st = some st' →
    GenInv st'
  | [], _, st, st', hInv, h => by
      simp only [genWebLoop, Option.some.injEq] at h
      exact h ▸ hInv
  | spec :: rest, i, st, st', hInv, h => by
      simp only [genWebLoop] at h
      rcases hname : generateServiceName spec.name (i + 1) st.rng with ⟨name, g2⟩
      rw [hname] at h
      simp only at h
      rcases hip : randomIpAux st.usedIps g2 ipFuel with _ | ⟨ip, usedIps2, g3⟩
      · rw [hip] at h
        simp at h
      · rw [hip] at h
        simp only at h
        rcases hap : assignPorts spec.ports st.usedPorts st.portOffset with
          _ | ⟨ports, usedPorts2, portOffset2⟩
        · rw [hap] at h
          simp at h
        · rw [hap] at h
          simp only at h
          obtain ⟨hfresh, hused, hrange⟩ := randomIpAux_spec _ _ _ _ _ _ hip
          subst hused
          refine genWebLoop_inv rest (i + 1) _ st' ?_ h
          exact genInvStep st name
            { image := spec.image, container_name := name,
              ipv4_address := ip, ports := ports,
              labels := [("discovery.type", "web-server"),
                         ("discovery.technology", spec.name)] }
            usedPorts2 portOffset2 g3 hInv hfresh hrange

theorem genAppLoop_inv : ∀ (specs : List ServiceSpec) (i : Nat)
    (st st' : GenState), GenInv st → genAppLoop specs i st = some st' →
    GenInv st'
  | [], _, st, st', hInv, h => by
      simp only [genAppLoop, Option.some.injEq] at h
      exact h ▸ hInv
  | spec :: rest, i, st, st', hInv, h => by
      simp only [genAppLoop] at h
      rcases hname : generateServiceName spec.name (i + 1) st.rng with ⟨name, g2⟩
      rw [hname] at h
      simp only at h
      rcases hip : randomIpAux st.usedIps g2 ipFuel with _ | ⟨ip, usedIps2, g3⟩
      · rw [hip] at h
        simp at h
      · rw [hip] at h
        simp only at h
        rcases hap : assignPorts spec.ports st.usedPorts st.portOffset with
          _ | ⟨ports, usedPorts2, portOffset2⟩
        · rw [hap] at h
          simp at h
        · rw [hap] at h
          simp only at h
          obtain ⟨hfresh, hused, hrange⟩ := randomIpAux_spec _ _ _ _ _ _ hip
          subst hused
          refine genAppLoop_inv rest (i + 1) _ st' ?_ h
          exact genInvStep st name
            { image := spec.image, container_name := name,
              ipv4_address := ip, ports := ports,
              labels := [("discovery.type", "app-server"),
                         ("discovery.technology", spec.name),
                         ("discovery.language", spec.lang.getD "")],
              command := some "tail -f /dev/null" }
            usedPorts2 portOffset2 g3 hInv hfresh hrange

theorem genQueueLoop_inv : ∀ (specs : List ServiceSpec) (i : Nat)
    (st st' : GenState), GenInv st → genQueueLoop specs i st = some st' →
    GenInv st'
  | [], _, st, st', hInv, h => by
      simp only [genQueueLoop, Option.some.injEq] at h
      exact h ▸ hInv
  | spec :: rest, i, st, st', hInv, h => by
      simp only [genQueueLoop] at h
      rcases hname : generateServiceName spec.name (i + 1) st.rng with ⟨name, g2⟩
      rw [hname] at h
      simp only at h
      rcases hip : randomIpAux st.usedIps g2 ipFuel with _ | ⟨ip, usedIps2, g3⟩
      · rw [hip] at h
        simp at h
      · rw [hip] at h
        simp only at h
        rcases hap : assignPorts spec.ports st.usedPorts st.portOffset with
          _ | ⟨ports, usedPorts2, portOffset2⟩
        · rw [hap] at h
          simp at h
        · rw [hap] at h
          simp only at h
          obtain ⟨hfresh, hused, hrange⟩ := randomIpAux_spec _ _ _ _ _ _ hip
          subst hused
          refine genQueueLoop_inv rest (i + 1) _ st' ?_ h
          exact genInvStep st name
            { image := spec.image, container_name := name,
              ipv4_address := ip, ports := ports,
              labels := [("discovery.type", "message-queue"),
                         ("discovery.technology", spec.name)] }
            usedPorts2 portOffset2 g3 hInv hfresh hrange

theorem genDbLoop_inv : ∀ (specs : List ServiceSpec) (i : Nat)
    (st st' : GenState), GenInv st → genDbLoop specs i st = some st' →
    GenInv st'
  | [], _, st, st', hInv, h => by
      simp only [genDbLoop, Option.some.injEq] at h
      exact h ▸ hInv
  | spec :: rest, i, st, st', hInv, h => by
      simp only [genDbLoop] at h
      rcases hdept : rchoice DEPARTMENT_NAMES "" st.rng with ⟨dept, g2⟩
      rw [hdept] at h
      simp only at h
      rcases hip : randomIpAux st.usedIps g2 ipFuel with _ | ⟨ip, usedIps2, g3⟩
      · rw [hip] at h
        simp at h
      · rw [hip] at h
        simp only at h
        rcases hap : assignPorts spec.ports st.usedPorts st.portOffset with
          _ | ⟨ports, usedPorts2, portOffset2⟩
        · rw [hap] at h
          simp at h
        · rw [hap] at h
          simp only at h
          rcases henv : generateDatabaseEnv spec.name dept g3 with ⟨env, g4⟩
          rw [henv] at h
          simp only at h
          obtain ⟨hfresh, hused, hrange⟩ := randomIpAux_spec _ _ _ _ _ _ hip
          subst hused
          refine genDbLoop_inv rest (i + 1) _ st' ?_ h
          exact genInvStep st
            ("target-" ++ dept ++ "-" ++ spec.name ++ "-" ++ fmt02 (i + 1))
            { image := spec.image,
              container_name :=
                "target-" ++ dept ++ "-" ++ spec.name ++ "-" ++ fmt02 (i + 1),
              ipv4_address := ip, ports := ports,
              labels := [("discovery.type", "database"),
                         ("discovery.technology", spec.name),
                         ("discovery.db-type", spec.dbtype.getD "")],
              environment := if env.isEmpty then none else some env }
            usedPorts2 portOffset2 g4 hInv hfresh hrange

theorem genInfraLoop_inv : ∀ (specs : List ServiceSpec) (i : Nat)
    (st st' : GenState), GenInv st → genInfraLoop specs i st = some st' →
    GenInv st'
  | [], _, st, st', hInv, h => by
      simp only [genInfraLoop, Option.some.injEq] at h
      exact h ▸ hInv
  | spec :: rest, i, st, st', hInv, h => by
      simp only [genInfraLoop] at h
      rcases hname : generateServiceName spec.name (i + 1) st.rng with ⟨name, g2⟩
      rw [hname] at h
      simp only at h
      rcases hip : randomIpAux st.usedIps g2 ipFuel with _ | ⟨ip, usedIps2, g3⟩
      · rw [hip] at h
        simp at h
      · rw [hip] at h
        simp only at h
        rcases hap : assignPorts spec.ports st.usedPorts st.portOffset with
          _ | ⟨ports, usedPorts2, portOffset2⟩
        · rw [hap] at h
          simp at h
        · rw [hap] at h
          simp only at h
          obtain ⟨hfresh, hused, hrange⟩ := randomIpAux_spec _ _ _ _ _ _ hip
          subst hused
          by_cases hmin : spec.name = "minio"
          · rw [if_pos hmin] at h
            rcases hpfx : rchoice COMPANY_PREFIXES "" g3 with ⟨pfx, g4⟩
            rw [hpfx] at h
            simp only at h
            rcases hpw : generatePassword g4 with ⟨pw, g5⟩
            rw [hpw] at h
            simp only at h
            refine genInfraLoop_inv rest (i + 1) _ st' ?_ h
            exact genInvStep st name
              { image := spec.image, container_name := name,
                ipv4_address := ip, ports := ports,
                labels := [("discovery.type", "infrastructure"),
                           ("discovery.technology", spec.name)],
                command := some ("server /data --console-address " ++
                  apos ++ ":9001" ++ apos),
                environment := some
                  [("MINIO_ROOT_USER", pfx ++ "_admin"),
                   ("MINIO_ROOT_PASSWORD", pw)] }
              usedPorts2 portOffset2 g5 hInv hfresh hrange
          · rw [if_neg hmin] at h
            simp only at h
            refine genInfraLoop_inv rest (i + 1) _ st' ?_ h
            exact genInvStep st name
              { image := spec.image, container_name := name,
                ipv4_address := ip, ports := ports,
                labels := [("discovery.type", "infrastructure"),
                           ("discovery.technology", spec.name)] }
              usedPorts2 portOffset2 g3 hInv hfresh hrange

theorem genInv_init (ips : List String) (ups : List Nat) (off : Nat)
    (g : Rng) (hgw : "172.28.0.1" ∈ ips) :
    GenInv { usedIps := ips, usedPorts := ups, portOffset := off,
             services := [], rng := g } := by
  refine ⟨List.nodup_nil, List.nodup_nil, ?_, hgw, ?_⟩ <;>
    intro ip hm <;> simp [serviceIps] at hm

theorem genCompose_inv (g : Rng) (c : ComposeFile)
    (h : genCompose g = some c) :
    c.version = "3.8" ∧ c.networkSubnet = "172.28.0.0/24" ∧
    c.networkGateway = "172.28.0.1" ∧
    (serviceIps c.services).Nodup ∧
    (∀ ip ∈ serviceIps c.services, ip ≠ "172.28.0.1" ∧
      ∃ k, 10 ≤ k ∧ k ≤ 250 ∧ ip = "172.28.0." ++ toString k) := by
  unfold genCompose at h
  rcases h1 : randint 1 2 g with ⟨numWeb, gA⟩
  rw [h1] at h
  simp only at h
  rcases h2 : randint 1 2 gA with ⟨numApp, gB⟩
  rw [h2] at h
  simp only at h
  rcases h3 : randint 1 2 gB with ⟨numDb, gC⟩
  rw [h3] at h
  simp only at h
  rcases h4 : randint 0 1 gC with ⟨numQ, gD⟩
  rw [h4] at h
  simp only at h
  rcases h5 : randint 0 1 gD with ⟨numInfra, gE⟩
  rw [h5] at h
  simp only at h
  rcases h6 : rsample (min numWeb WEB_SERVERS.length) WEB_SERVERS gE with
    ⟨selWeb, gF⟩
  rw [h6] at h
  simp only at h
  rcases hw : genWebLoop selWeb 0
      { usedIps := ["172.28.0.1"], usedPorts := [], portOffset := 0,
        services := [], rng := gF } with _ | st1
  · rw [hw] at h
    simp at h
  rw [hw] at h
  simp only at h
  have hInv1 := genWebLoop_inv _ _ _ _
    (genInv_init ["172.28.0.1"] [] 0 gF (by simp)) hw
  rcases h7 : rsample (min numApp APP_SERVERS.length) APP_SERVERS st1.rng with
    ⟨selApps, gG⟩
  rw [h7] at h
  simp only at h
  rcases ha : genAppLoop selApps 0 { st1 with rng := gG } with _ | st2
  · rw [ha] at h
    simp at h
  rw [ha] at h
  simp only at h
  have hInv2 := genAppLoop_inv _ _ _ _
    (by
      obtain ⟨k1, k2, k3, k4, k5⟩ := hInv1
      exact ⟨k1, k2, k3, k4, k5⟩) ha
  rcases h8 : rsample (min numDb DATABASES.length) DATABASES st2.rng with
    ⟨selDbs, gH⟩
  rw [h8] at h
  simp only at h
  rcases hd : genDbLoop selDbs 0 { st2 with rng := gH } with _ | st3
  · rw [hd] at h
    simp at h
  rw [hd] at h
  simp only at h
  have hInv3 := genDbLoop_inv _ _ _ _
    (by
      obtain ⟨k1, k2, k3, k4, k5⟩ := hInv2
      exact ⟨k1, k2, k3, k4, k5⟩) hd
  have hfinish : ∀ stF : GenState, GenInv stF →
      (some ({ version := "3.8", services := stF.services,
               networkSubnet := "172.28.0.0/24",
               networkGateway := "172.28.0.1" } : ComposeFile) = some c) →
      c.version = "3.8" ∧ c.networkSubnet = "172.28.0.0/24" ∧
      c.networkGateway = "172.28.0.1" ∧
      (serviceIps c.services).Nodup ∧
      (∀ ip ∈ serviceIps c.services, ip ≠ "172.28.0.1" ∧
        ∃ k, 10 ≤ k ∧ k ≤ 250 ∧ ip = "172.28.0." ++ toString k) := by
    intro stF hInvF hc
    obtain rfl := Option.some.inj hc
    exact ⟨rfl, rfl, rfl, hInvF.2.1, fun ip hm => hInvF.2.2.2.2 ip hm⟩
  by_cases hq : numQ > 0
  · rw [if_pos hq] at h
    rcases h9 : rsample (min numQ MESSAGE_QUEUES.length) MESSAGE_QUEUES
        st3.rng with ⟨selQ, gI⟩
    rw [h9] at h
    simp only at h
    rcases hql : genQueueLoop selQ 0 { st3 with rng := gI } with _ | st4
    · rw [hql] at h
      simp at h
    rw [hql] at h
    simp only at h
    have hInv4 := genQueueLoop_inv _ _ _ _
      (by
        obtain ⟨k1, k2, k3, k4, k5⟩ := hInv3
        exact ⟨k1, k2, k3, k4, k5⟩) hql
    by_cases hi : numInfra > 0
    · rw [if_pos hi] at h
      rcases h10 : rsample (min numInfra INFRASTRUCTURE.length)
          INFRASTRUCTURE st4.rng with ⟨selI, gJ⟩
      rw [h10] at h
      simp only at h
      rcases hil : genInfraLoop selI 0 { st4 with rng := gJ } with _ | st5
      · rw [hil] at h
        simp at h
      rw [hil] at h
      simp only at h
      exact hfinish st5 (genInfraLoop_inv _ _ _ _
        (by
          obtain ⟨k1, k2, k3, k4, k5⟩ := hInv4
          exact ⟨k1, k2, k3, k4, k5⟩) hil) h
    · rw [if_neg hi] at h
      simp only at h
      exact hfinish st4 hInv4 h
  · rw [if_neg hq] at h
    simp only at h
    by_cases hi : numInfra > 0
    · rw [if_pos hi] at h
      rcases h10 : rsample (min numInfra INFRASTRUCTURE.length)
          INFRASTRUCTURE st3.rng with ⟨selI, gJ⟩
      rw [h10] at h
      simp only at h
      rcases hil : genInfraLoop selI 0 { st3 with rng := gJ } with _ | st5
      · rw [hil] at h
        simp at h
      rw [hil] at h
      simp only at h
      exact hfinish st5 (genInfraLoop_inv _ _ _ _
        (by
          obtain ⟨k1, k2, k3, k4, k5⟩ := hInv3
          exact ⟨k1, k2, k3, k4, k5⟩) hil) h
    · rw [if_neg hi] at h
      simp only at h
      exact hfinish st3 hInv3 h

/-- **C8.**  When an explicit seed is supplied, the generator's output is a
function of the seed alone — two invocations at different wall-clock times
produce identical docker-compose structures (`random.seed(seed)` fixes the
PRNG stream, the only other input) — the corresponding manifests are
identical except for the `generated_at` field, and every successful output
places the services on pairwise-distinct IPs drawn from
`172.28.0.10`–`172.28.0.250` inside `172.28.0.0/24`, never the `.1`
gateway, with the fixed network block. -/
theorem C8_seeded_determinism (streamOf : Int → RandStream)
    (s now1 now2 : Int) :
    generateEnvironment (some s) now1 streamOf =
      generateEnvironment (some s) now2 streamOf ∧
    (∀ c seed t1 t2,
      generateEnvironment (some s) now1 streamOf = some (c, seed) →
      eraseGeneratedAt (generateManifest c seed t1) =
        eraseGeneratedAt (generateManifest c seed t2)) ∧
    (∀ c seed,
      generateEnvironment (some s) now1 streamOf = some (c, seed) →
      seed = s ∧ c.version = "3.8" ∧ c.networkSubnet = "172.28.0.0/24" ∧
      c.networkGateway = "172.28.0.1" ∧
      (serviceIps c.services).Nodup ∧
      (∀ ip ∈ serviceIps c.services, ip ≠ "172.28.0.1" ∧
        ∃ k, 10 ≤ k ∧ k ≤ 250 ∧ ip = "172.28.0." ++ toString k)) := by
  refine ⟨rfl, ?_, ?_⟩
  · intro c seed t1 t2 _
    simp [generateManifest, eraseGeneratedAt]
  · intro c seed h
    unfold generateEnvironment at h
    rw [Option.map_eq_some'] at h
    obtain ⟨c0, hc0, hpair⟩ := h
    obtain ⟨hc, hseed⟩ : c0 = c ∧ s = seed := by
      have h1 := congrArg Prod.fst hpair
      have h2 := congrArg Prod.snd hpair
      exact ⟨h1, h2⟩
    subst hc
    obtain ⟨hv, hsub, hgw, hnd, hall⟩ := genCompose_inv _ _ hc0
    exact ⟨hseed.symm, hv, hsub, hgw, hnd, hall⟩

/-- **C8** (witness): the theorem at seed 42 over a concrete stream — the
run succeeds, wall-clock instants 7 and 99 give identical output, the
manifests at two different timestamps agree once `generated_at` is
blanked, and the generated IPs are pairwise distinct. -/
theorem C8_seeded_determinism_witness :
    generateEnvironment (some 42) 7 (fun _ i => i) =
      generateEnvironment (some 42) 99 (fun _ i => i) ∧
    (generateEnvironment (some 42) 7 (fun _ i => i)).isSome = true ∧
    (serviceIps (((generateEnvironment (some 42) 7 (fun _ i => i)).getD
      ({ version := "", services := [], networkSubnet := "",
         networkGateway := "" }, 0)).1.services)).Nodup ∧
    eraseGeneratedAt (generateManifest
      (((generateEnvironment (some 42) 7 (fun _ i => i)).getD
        ({ version := "", services := [], networkSubnet := "",
           networkGateway := "" }, 0)).1)
      42 "2026-01-01T00:00:00") =
    eraseGeneratedAt (generateManifest
      (((generateEnvironment (some 42) 7 (fun _ i => i)).getD
        ({ version := "", services := [], networkSubnet := "",
           networkGateway := "" }, 0)).1)
      42 "2026-12-31T23:59:59") := by
  have h := C8_seeded_determinism (fun _ i => i) 42 7 99
  rcases hgen : generateEnvironment (some 42) 7 (fun _ i => i) with _ | ⟨c, seed⟩
  · exact absurd hgen (by decide)
  · have h3 := h.2.2 c seed hgen
    have hm := h.2.1 c seed "2026-01-01T00:00:00" "2026-12-31T23:59:59" hgen
    refine ⟨?_, rfl, ?_, ?_⟩
    · rw [← hgen]
      exact h.1
    · simpa using h3.2.2.2.2.1
    · simp only [Option.getD_some]
      rw [← h3.1]
      exact hm
